import Mathlib

/-!
Shallow embedding of the Earth Physics Sandbox simulation core
(src/js/materials.js, src/js/simulation.js, src/js/physics.js,
src/js/interactions.js), together with theorems settling the claims
about its specification.

Modelling conventions:
* JS numbers holding grid coordinates, material ids, lifetimes and
  temperatures are modelled as `Int` (all call sites use integers).
* `Math.random()` is modelled as an ambient stream `RSrc : Nat → Rat`
  together with an explicit draw counter that every effectful function
  threads through; one draw reads `r k` and moves the counter to `k + 1`.
* The cell array is a row-major `List Cell`; the `Uint8ClampedArray`
  colour cache is a `List Nat` of bytes; the `Set` of dynamic cells is a
  duplicate-free `List Nat` in insertion order (JS `Set` iteration
  order), `add` appends when absent, `delete` removes the element.
* JS truthiness of integer fields (`mat.lifetime || 0`,
  `mat.temperature || 20`, `cell.life || mat.lifetime`) is modelled as a
  comparison with 0.
-/

namespace Sandbox

/-- Material ids, from `MATERIAL` in materials.js. -/
def AIR : Int := 0
def STONE : Int := 1
def DIRT : Int := 2
def SAND : Int := 3
def CLAY : Int := 4
def METAL : Int := 5
def ICE : Int := 6
def WATER : Int := 10
def MUD : Int := 11
def OIL : Int := 12
def LAVA : Int := 13
def STEAM : Int := 20
def SMOKE : Int := 21
def GAS : Int := 22
def GRASS : Int := 30
def PLANT : Int := 31
def WOOD : Int := 32
def CHARCOAL : Int := 33
def FIRE : Int := 40
def ELECTRICITY : Int := 41
def EXPLOSION : Int := 42

/-- Physical states, from `STATE` in materials.js. -/
inductive MState where
  | solid | powder | liquid | gas | energy
deriving DecidableEq, Repr

/-- A material colour: either a fixed RGB triple, or one of the
procedural (function-valued) colour generators of materials.js
(`colorVariant(base, variance)`, `fireColor`, `lavaColor`,
`electricityColor`, and the inline explosion colour). -/
inductive ColorSpec where
  | fixed (r g b : Int)
  | variantOf (r g b variance : Int)
  | fireC
  | lavaC
  | electricityC
  | explosionC
deriving DecidableEq, Repr

/-- Whether the JS `color` property is a function
(`typeof mat.color === 'function'`). Only `fixed` is a plain array. -/
def ColorSpec.isFn : ColorSpec → Bool
  | .fixed _ _ _ => false
  | _ => true

/-- A material definition record; fields are exactly the properties of
materials.js that the simulation core reads.  Absent optional JS fields
are `none` (for transition targets) or the value JS truthiness gives
them at each read site (`lifetime` 0, `meltTemp` 0, `viscosity` handled
via `Option` mirroring `mat.viscosity || 1`). -/
structure Material where
  id : Int
  color : ColorSpec
  density : Int
  state : MState
  flammable : Bool
  temperature : Int
  immovable : Bool := false
  conductive : Bool := false
  ignites : Bool := false
  dissipates : Bool := false
  viscosity : Option Int := none
  lifetime : Int := 0
  meltTemp : Int := 0
  condensesTo : Option Int := none
  produces : Option Int := none
deriving DecidableEq, Repr

def airMat : Material :=
  { id := AIR, color := .fixed 10 10 20, density := 0, state := .gas,
    flammable := false, temperature := 20 }

/-- Translation of `getMaterial(id)` from materials.js: the `MATERIALS` table, with
unknown ids resolving to the AIR definition. -/
def getMaterial (i : Int) : Material :=
  if i = STONE then
    { id := STONE, color := .variantOf 85 85 85 15, density := 100, state := .solid,
      flammable := false, temperature := 20, immovable := true }
  else if i = DIRT then
    { id := DIRT, color := .variantOf 110 80 40 12, density := 60, state := .powder,
      flammable := false, temperature := 20 }
  else if i = SAND then
    { id := SAND, color := .variantOf 210 190 140 15, density := 50, state := .powder,
      flammable := false, temperature := 20 }
  else if i = CLAY then
    { id := CLAY, color := .variantOf 140 100 70 10, density := 70, state := .solid,
      flammable := false, temperature := 20 }
  else if i = METAL then
    { id := METAL, color := .variantOf 120 130 150 8, density := 150, state := .solid,
      flammable := false, temperature := 20, conductive := true }
  else if i = ICE then
    { id := ICE, color := .variantOf 180 220 255 10, density := 35, state := .solid,
      flammable := false, temperature := -10, meltTemp := 0 }
  else if i = WATER then
    { id := WATER, color := .variantOf 50 130 200 15, density := 40, state := .liquid,
      flammable := false, temperature := 20, viscosity := some 1, conductive := true }
  else if i = MUD then
    { id := MUD, color := .variantOf 70 55 40 8, density := 55, state := .liquid,
      flammable := false, temperature := 20, viscosity := some 8 }
  else if i = OIL then
    { id := OIL, color := .variantOf 40 35 25 5, density := 30, state := .liquid,
      flammable := true, temperature := 20, viscosity := some 3 }
  else if i = LAVA then
    { id := LAVA, color := .lavaC, density := 90, state := .liquid,
      flammable := false, temperature := 1200, viscosity := some 12, ignites := true }
  else if i = STEAM then
    { id := STEAM, color := .variantOf 200 210 220 10, density := -20, state := .gas,
      flammable := false, temperature := 100, condensesTo := some WATER, lifetime := 300 }
  else if i = SMOKE then
    { id := SMOKE, color := .variantOf 60 60 65 10, density := -15, state := .gas,
      flammable := false, temperature := 80, lifetime := 200, dissipates := true }
  else if i = GAS then
    { id := GAS, color := .variantOf 150 220 150 20, density := -10, state := .gas,
      flammable := true, temperature := 20 }
  else if i = GRASS then
    { id := GRASS, color := .variantOf 50 140 50 20, density := 25, state := .solid,
      flammable := true, temperature := 20 }
  else if i = PLANT then
    { id := PLANT, color := .variantOf 70 180 70 25, density := 20, state := .solid,
      flammable := true, temperature := 20 }
  else if i = WOOD then
    { id := WOOD, color := .variantOf 120 80 40 15, density := 35, state := .solid,
      flammable := true, temperature := 20 }
  else if i = CHARCOAL then
    { id := CHARCOAL, color := .variantOf 35 35 40 5, density := 25, state := .powder,
      flammable := true, temperature := 20 }
  else if i = FIRE then
    { id := FIRE, color := .fireC, density := -30, state := .energy,
      flammable := false, temperature := 600, lifetime := 60,
      produces := some SMOKE, ignites := true }
  else if i = ELECTRICITY then
    { id := ELECTRICITY, color := .electricityC, density := 0, state := .energy,
      flammable := false, temperature := 50, lifetime := 5, ignites := true }
  else if i = EXPLOSION then
    { id := EXPLOSION, color := .explosionC, density := 0, state := .energy,
      flammable := false, temperature := 2000, lifetime := 3, ignites := true }
  else
    airMat

/-- Random source: `Math.random()` is draw `r k` at counter `k`. -/
abbrev RSrc := Nat → Rat

/-- Translation of `ToUint8Clamp` of the JS spec, used by `Uint8ClampedArray` stores:
clamp to [0, 255], round half to even. -/
def toByte (q : Rat) : Nat :=
  if q ≤ 0 then 0
  else if 255 ≤ q then 255
  else
    let f : Int := ⌊q⌋
    let frac : Rat := q - (f : Rat)
    let n : Int :=
      if frac > 1/2 then f + 1
      else if frac < 1/2 then f
      else if f % 2 = 0 then f else f + 1
    n.toNat

/-- Sample a colour, mirroring each generator's `Math.random()` draws:
`colorVariant` draws once, `fireColor` three times, `lavaColor` and
`electricityColor` and the explosion colour twice. Returns the RGB
triple (as rationals, clamped on store by `toByte`) and the new draw
counter. -/
def sampleColor (c : ColorSpec) (r : RSrc) (k : Nat) : (Rat × Rat × Rat) × Nat :=
  match c with
  | .fixed a b g => ((a, b, g), k)
  | .variantOf br bg bb variance =>
      let v : Int := ⌊r k * (variance * 2 : Int)⌋ - variance
      ((max 0 (min 255 (br + v)) : Int),
        ((max 0 (min 255 (bg + v)) : Int) : Rat),
        ((max 0 (min 255 (bb + v)) : Int) : Rat)) |> fun rgb => (rgb, k + 1)
  | .fireC =>
      let a : Int := 200 + ⌊r k * 55⌋
      let b : Int := ⌊r (k + 1) * 150⌋
      let c : Int := ⌊r (k + 2) * 50⌋
      (((a : Rat), (b : Rat), (c : Rat)), k + 3)
  | .lavaC =>
      let a : Int := 200 + ⌊r k * 55⌋
      let b : Int := 50 + ⌊r (k + 1) * 100⌋
      (((a : Rat), (b : Rat), 0), k + 2)
  | .electricityC =>
      let intensity : Int := if r k > 1/2 then 255 else 200
      let b : Int := ⌊r (k + 1) * 100⌋
      (((intensity : Rat), (intensity : Rat), (b : Rat)), k + 2)
  | .explosionC =>
      ((255, 200 + r k * 55, r (k + 1) * 100), k + 2)

/-- A grid cell: `{ id, life, temperature }` as written by
`Simulation.setCell` / `Simulation.reset`.  (The source also reads a
`cell.updated` property in `PhysicsEngine.update`, but no statement in
the source ever writes it, so the comparison `cell.updated ===
frameCount` is `undefined === n` — always false once `tick` has
incremented `frameCount` to a number ≥ 1 — and the field is omitted
here.) -/
structure Cell where
  id : Int
  life : Int
  temperature : Int
deriving DecidableEq, Repr

def airCell : Cell := { id := AIR, life := 0, temperature := 20 }

/-- The synthetic boundary cell returned by `getCell` for out-of-range
coordinates: `{ id: MATERIAL.STONE, immovable: true }`.  Its JS `life`
and `temperature` are `undefined` and are never read by the simulation
core; they are fixed here at 0 and 20. -/
def boundaryCell : Cell := { id := STONE, life := 0, temperature := 20 }

/-- The whole `Simulation` object state. -/
structure Sim where
  width : Int
  height : Int
  grid : List Cell
  colorCache : List Nat
  dynamicCells : List Nat
  paused : Bool
  speed : Rat
  ticksPerFrame : Int
  frameCount : Int
  particleCount : Int
deriving DecidableEq, Repr

/-- Translation of `inBounds(x, y)`. -/
def inBounds (s : Sim) (x y : Int) : Bool :=
  decide (0 ≤ x) && decide (x < s.width) && decide (0 ≤ y) && decide (y < s.height)

/-- Translation of `getCell(x, y)`: out-of-range coordinates get the synthetic
immovable boundary cell without touching the cell array. -/
def getCell (s : Sim) (x y : Int) : Cell :=
  if x < 0 ∨ x ≥ s.width ∨ y < 0 ∨ y ≥ s.height then boundaryCell
  else s.grid.getD (y * s.width + x).toNat airCell

/-- JS `Set.add`: append when absent (insertion-order iteration). -/
def dynAdd (l : List Nat) (i : Nat) : List Nat :=
  if i ∈ l then l else l ++ [i]

/-- JS `Set.delete`. `dynAdd` never creates duplicates, so erasing the
first occurrence is exact. -/
def dynDelete (l : List Nat) (i : Nat) : List Nat :=
  l.erase i

/-- Write one RGBA quadruple into the colour cache at cell index `i`. -/
def writeColor4 (cc : List Nat) (i : Nat) (rgb : Rat × Rat × Rat) : List Nat :=
  ((((cc.set (i * 4) (toByte rgb.1)).set
      (i * 4 + 1) (toByte rgb.2.1)).set
      (i * 4 + 2) (toByte rgb.2.2)).set
      (i * 4 + 3) 255)

/-- Translation of `setCell(x, y, materialId, props)`.  `pLife`/`pTemp` model the only
fields a `props` override could supply to the new cell record (no call site in
the repository passes any `props`); `props` wins over material
defaults. -/
def setCellFull (s : Sim) (x y mid : Int) (pLife pTemp : Option Int)
    (r : RSrc) (k : Nat) : Sim × Nat :=
  if x < 0 ∨ x ≥ s.width ∨ y < 0 ∨ y ≥ s.height then (s, k)
  else
    let idx : Nat := (y * s.width + x).toNat
    let oldId := (s.grid.getD idx airCell).id
    let pc :=
      if oldId = AIR ∧ mid ≠ AIR then s.particleCount + 1
      else if oldId ≠ AIR ∧ mid = AIR then s.particleCount - 1
      else s.particleCount
    let mat := getMaterial mid
    let newCell : Cell :=
      { id := mid,
        life := pLife.getD mat.lifetime,
        temperature := pTemp.getD (if mat.temperature = 0 then 20 else mat.temperature) }
    let dyn :=
      if mat.color.isFn then dynAdd s.dynamicCells idx
      else dynDelete s.dynamicCells idx
    let (rgb, k1) := sampleColor mat.color r k
    ({ s with grid := s.grid.set idx newCell,
              particleCount := pc,
              dynamicCells := dyn,
              colorCache := writeColor4 s.colorCache idx rgb }, k1)

/-- Translation of `setCell` with the default empty `props`, as every call site in the
repository uses it. -/
def setCell (s : Sim) (x y mid : Int) (r : RSrc) (k : Nat) : Sim × Nat :=
  setCellFull s x y mid none none r k

/-- Translation of `swap(x1, y1, x2, y2)`: exchanges the two cell records, their RGB
colour-cache bytes (the alpha bytes are not touched), and then runs the
two dynamic-set conditionals exactly as written — note the second
`has(idx2)` test observes the `add(idx2)` performed by the first
branch. -/
def swapCells (s : Sim) (x1 y1 x2 y2 : Int) : Sim :=
  if x1 < 0 ∨ x1 ≥ s.width ∨ y1 < 0 ∨ y1 ≥ s.height then s
  else if x2 < 0 ∨ x2 ≥ s.width ∨ y2 < 0 ∨ y2 ≥ s.height then s
  else
    let idx1 : Nat := (y1 * s.width + x1).toNat
    let idx2 : Nat := (y2 * s.width + x2).toNat
    let temp := s.grid.getD idx1 airCell
    let grid1 := (s.grid.set idx1 (s.grid.getD idx2 airCell)).set idx2 temp
    let cc := s.colorCache
    let r1 := cc.getD (idx1 * 4) 0
    let g1 := cc.getD (idx1 * 4 + 1) 0
    let b1 := cc.getD (idx1 * 4 + 2) 0
    let cc1 := ((cc.set (idx1 * 4) (cc.getD (idx2 * 4) 0)).set
        (idx1 * 4 + 1) (cc.getD (idx2 * 4 + 1) 0)).set
        (idx1 * 4 + 2) (cc.getD (idx2 * 4 + 2) 0)
    let cc2 := ((cc1.set (idx2 * 4) r1).set (idx2 * 4 + 1) g1).set (idx2 * 4 + 2) b1
    let d0 := s.dynamicCells
    let d1 := if idx1 ∈ d0 then dynAdd (dynDelete d0 idx1) idx2 else d0
    let d2 := if idx2 ∈ d1 then dynAdd (dynDelete d1 idx2) idx1 else d1
    { s with grid := grid1, colorCache := cc2, dynamicCells := d2 }

/-- Translation of `getColor(id)` of materials.js (sampling procedural colours). -/
def getColorOf (i : Int) (r : RSrc) (k : Nat) : (Rat × Rat × Rat) × Nat :=
  sampleColor (getMaterial i).color r k

/-- Translation of `updateCellColor(x, y)` (no bounds check in the source; only called
on in-range coordinates). -/
def updateCellColor (s : Sim) (x y : Int) (r : RSrc) (k : Nat) : Sim × Nat :=
  let idx : Nat := (y * s.width + x).toNat
  let cell := s.grid.getD idx airCell
  let (rgb, k1) := getColorOf cell.id r k
  ({ s with colorCache := writeColor4 s.colorCache idx rgb }, k1)

/-- Translation of `updateColorCache()`: for y in [0, height), x in [0, width). -/
def updateColorCache (s : Sim) (r : RSrc) (k : Nat) : Sim × Nat :=
  (List.range s.height.toNat).foldl
    (fun acc yy =>
      (List.range s.width.toNat).foldl
        (fun acc2 xx => updateCellColor acc2.1 (xx : Int) (yy : Int) r acc2.2) acc)
    (s, k)

/-- Translation of `reset()`: every cell becomes AIR, the particle count and the
dynamic-cell set are cleared, and the full colour cache is recomputed
(no draws happen then, since the AIR colour is a fixed triple). -/
def reset (s : Sim) (r : RSrc) (k : Nat) : Sim × Nat :=
  let s1 := { s with grid := s.grid.map (fun _ => airCell),
                     particleCount := 0,
                     dynamicCells := [] }
  updateColorCache s1 r k

/-- Translation of `new Simulation(width, height)`.  The constructor performs no
dimension validation; it fails (JS `RangeError: Invalid array length`
from `new Array(width * height)`) exactly when `width * height < 0`.
The `Uint8ClampedArray` colour cache starts zero-filled, and `reset`
then rewrites the entries reached by the `[0,height)×[0,width)` loops. -/
def construct (w h : Int) (r : RSrc) (k : Nat) : Option (Sim × Nat) :=
  if w * h < 0 then none
  else
    let s0 : Sim :=
      { width := w, height := h,
        grid := List.replicate (w * h).toNat airCell,
        colorCache := List.replicate (w * h * 4).toNat 0,
        dynamicCells := [],
        paused := true, speed := 1, ticksPerFrame := 1,
        frameCount := 0, particleCount := 0 }
    some (reset s0 r k)

/-! ## Physics engine (src/js/physics.js) -/

/-- Translation of `PhysicsEngine.tryPowderSlide(x, y, dir, cell, mat)` (no draws). -/
def tryPowderSlide (s : Sim) (x y dir : Int) (mat : Material) : Bool × Sim :=
  let side := getCell s (x + dir) y
  let sideMat := getMaterial side.id
  let diag := getCell s (x + dir) (y + 1)
  let diagMat := getMaterial diag.id
  let diagOpen := diag.id = AIR ∨ (diagMat.state = .liquid ∧ mat.density > diagMat.density)
  let sideOpen := side.id = AIR ∨ sideMat.state = .gas
  if diagOpen ∧ sideOpen then (true, swapCells s x y (x + dir) (y + 1))
  else (false, s)

/-- Translation of `PhysicsEngine.updatePowder(x, y, cell, mat)`. -/
def updatePowder (s : Sim) (r : RSrc) (k : Nat) (x y : Int) (mat : Material) :
    Bool × Sim × Nat :=
  let below := getCell s x (y + 1)
  let belowMat := getMaterial below.id
  if below.id = AIR then (true, swapCells s x y x (y + 1), k)
  else if belowMat.state = .liquid ∧ mat.density > belowMat.density then
    -- slow sinking through liquid
    if r k < 4/10 then (true, swapCells s x y x (y + 1), k + 1)
    else (false, s, k + 1)
  else
    let dir : Int := if r k < 1/2 then 1 else -1
    let (m1, s1) := tryPowderSlide s x y dir mat
    if m1 then (true, s1, k + 1)
    else
      let (m2, s2) := tryPowderSlide s1 x y (-dir) mat
      if m2 then (true, s2, k + 1) else (false, s2, k + 1)

/-- Translation of `PhysicsEngine.updateLiquid(x, y, cell, mat)`.  The "float up
through denser liquids" branch of the source (lines 141-148) computes a
condition and performs no action; it is omitted since it reads no
randomness and has no effect. -/
def updateLiquid (s : Sim) (r : RSrc) (k : Nat) (x y : Int) (cell : Cell)
    (mat : Material) : Bool × Sim × Nat :=
  let viscosity := mat.viscosity.getD 1
  let (skip, k0) :=
    if viscosity > 1 then (decide (r k > 1 / (viscosity : Rat)), k + 1) else (false, k)
  if skip then (false, s, k0)
  else
    let below := getCell s x (y + 1)
    let belowMat := getMaterial below.id
    if below.id = AIR then (true, swapCells s x y x (y + 1), k0)
    else
      -- sink through less dense liquids (on failure, falls through)
      let (sunk, k1) :=
        if belowMat.state = .liquid ∧ mat.density > belowMat.density then
          (decide (r k0 < 1/2), k0 + 1)
        else (false, k0)
      if sunk then (true, swapCells s x y x (y + 1), k1)
      else
        let dir : Int := if r k1 < 1/2 then 1 else -1
        let k2 := k1 + 1
        let diag1 := getCell s (x + dir) (y + 1)
        if diag1.id = AIR then (true, swapCells s x y (x + dir) (y + 1), k2)
        else
          let diag2 := getCell s (x - dir) (y + 1)
          if diag2.id = AIR then (true, swapCells s x y (x - dir) (y + 1), k2)
          else
            let canSpread := belowMat.state = .solid ∨ belowMat.state = .powder ∨
              (belowMat.state = .liquid ∧ mat.density ≤ belowMat.density)
            if canSpread then
              let left := getCell s (x - 1) y
              let right := getCell s (x + 1) y
              let canLeft := left.id = AIR
              let canRight := right.id = AIR
              if canLeft ∧ canRight then (true, swapCells s x y (x + dir) y, k2)
              else if canLeft then (true, swapCells s x y (x - 1) y, k2)
              else if canRight then (true, swapCells s x y (x + 1) y, k2)
              else
                -- pressure equalization
                if r k2 < 3/10 then
                  let leftBelow := getCell s (x - 2) (y + 1)
                  let rightBelow := getCell s (x + 2) (y + 1)
                  if leftBelow.id = AIR ∧ left.id = cell.id then
                    (true, swapCells s x y (x - 1) y, k2 + 1)
                  else if rightBelow.id = AIR ∧ right.id = cell.id then
                    (true, swapCells s x y (x + 1) y, k2 + 1)
                  else (false, s, k2 + 1)
                else (false, s, k2 + 1)
            else (false, s, k2)

/-- Translation of `PhysicsEngine.updateGas(x, y, cell, mat)`.  The write
`cell.life = (cell.life || mat.lifetime) - 1` mutates the grid record in
place. -/
def updateGas (s : Sim) (r : RSrc) (k : Nat) (x y : Int) (cell : Cell)
    (mat : Material) : Bool × Sim × Nat :=
  let idx : Nat := (y * s.width + x).toNat
  let l1 : Int := (if cell.life ≠ 0 then cell.life else mat.lifetime) - 1
  let hasLife := mat.lifetime ≠ 0
  let s0 := if hasLife then { s with grid := s.grid.set idx { cell with life := l1 } } else s
  if hasLife ∧ l1 ≤ 0 then
    if mat.dissipates then (true, setCell s0 x y AIR r k)
    else
      match mat.condensesTo with
      | some c => (true, setCell s0 x y c r k)
      | none => (true, setCell s0 x y AIR r k)
  else
    let above := getCell s0 x (y - 1)
    let (rose, k1) := if above.id = AIR then (decide (r k < 8/10), k + 1) else (false, k)
    if rose then (true, swapCells s0 x y x (y - 1), k1)
    else
      let dir : Int := if r k1 < 1/2 then 1 else -1
      let k2 := k1 + 1
      let diagUp1 := getCell s0 (x + dir) (y - 1)
      let diagUp2 := getCell s0 (x - dir) (y - 1)
      let (d1, k3) := if diagUp1.id = AIR then (decide (r k2 < 1/2), k2 + 1) else (false, k2)
      if d1 then (true, swapCells s0 x y (x + dir) (y - 1), k3)
      else
        let (d2, k4) := if diagUp2.id = AIR then (decide (r k3 < 1/2), k3 + 1) else (false, k3)
        if d2 then (true, swapCells s0 x y (x - dir) (y - 1), k4)
        else
          if r k4 < 2/10 then
            let side := getCell s0 (x + dir) y
            if side.id = AIR then (true, swapCells s0 x y (x + dir) y, k4 + 1)
            else (false, s0, k4 + 1)
          else (false, s0, k4 + 1)

/-- The 8 neighbour offsets of the explosion loop, in its
`dy = -1..1, dx = -1..1` order (skipping `(0,0)`). -/
def expDirs : List (Int × Int) :=
  [(-1, -1), (0, -1), (1, -1), (-1, 0), (1, 0), (-1, 1), (0, 1), (1, 1)]

/-- One step of the explosion push loop body for offset `(dx, dy)`. -/
def explosionPush (s : Sim) (x y dx dy : Int) : Sim :=
  let nx := x + dx
  let ny := y + dy
  let neighbor := getCell s nx ny
  let neighborMat := getMaterial neighbor.id
  if ¬neighborMat.immovable ∧ neighbor.id ≠ EXPLOSION ∧ neighbor.id ≠ AIR then
    let pushX := x + dx * 2
    let pushY := y + dy * 2
    if inBounds s pushX pushY then
      let target := getCell s pushX pushY
      if target.id = AIR then swapCells s nx ny pushX pushY else s
    else s
  else s

/-- Translation of `PhysicsEngine.updateEnergy(x, y, cell, mat)` (fire, electricity,
explosion).  The life decrement `cell.life = (cell.life ||
mat.lifetime) - 1` is an in-place mutation of the grid record; the
unused local `force` of the source is dropped. -/
def updateEnergy (s : Sim) (r : RSrc) (k : Nat) (x y : Int) (cell : Cell)
    (mat : Material) : Bool × Sim × Nat :=
  let idx : Nat := (y * s.width + x).toNat
  let l1 : Int := (if cell.life ≠ 0 then cell.life else mat.lifetime) - 1
  let s0 : Sim := { s with grid := s.grid.set idx { cell with life := l1 } }
  if l1 ≤ 0 then
    match mat.produces with
    | some p => (true, setCell s0 x y p r k)
    | none => (true, setCell s0 x y AIR r k)
  else
    let fireStep : Option (Sim × Nat) :=
      if cell.id = FIRE then
        if r k < 4/10 then
          let above := getCell s0 x (y - 1)
          if above.id = AIR then some (swapCells s0 x y x (y - 1), k + 1) else none
        else none
      else none
    match fireStep with
    | some (s1, k1) => (true, s1, k1)
    | none =>
      let k1 := if cell.id = FIRE then k + 1 else k
      let flicker : Option (Sim × Nat) :=
        if cell.id = FIRE then
          if r k1 < 15/100 then
            let dir : Int := if r (k1 + 1) < 1/2 then 1 else -1
            let side := getCell s0 (x + dir) y
            if side.id = AIR then some (swapCells s0 x y (x + dir) y, k1 + 2) else none
          else none
        else none
      match flicker with
      | some (s1, k2) => (true, s1, k2)
      | none =>
        let k2 :=
          if cell.id = FIRE then
            (if r k1 < 15/100 then k1 + 2 else k1 + 1)
          else k1
        if cell.id = EXPLOSION then
          (false, expDirs.foldl (fun acc d => explosionPush acc x y d.1 d.2) s0, k2)
        else (false, s0, k2)

/-- Translation of `PhysicsEngine.updateSolid(x, y, cell, mat)`. -/
def updateSolid (s : Sim) (r : RSrc) (k : Nat) (x y : Int) (mat : Material) :
    Bool × Sim × Nat :=
  if mat.immovable then (false, s, k)
  else
    let below := getCell s x (y + 1)
    let belowMat := getMaterial below.id
    if below.id = AIR then (true, swapCells s x y x (y + 1), k)
    else if belowMat.state = .liquid then
      if mat.density < belowMat.density then (false, s, k)
      else if r k < 15/100 then (true, swapCells s x y x (y + 1), k + 1)
      else (false, s, k + 1)
    else (false, s, k)

/-- Translation of `PhysicsEngine.update(x, y)`: dispatch on the material state.  (The
`cell.updated === this.sim.frameCount` guard of the source is omitted:
`updated` is never assigned anywhere in the source, so the comparison is
always false — see `Cell`.) -/
def physicsUpdate (s : Sim) (r : RSrc) (k : Nat) (x y : Int) : Bool × Sim × Nat :=
  let cell := getCell s x y
  if cell.id = AIR then (false, s, k)
  else
    let mat := getMaterial cell.id
    if mat.immovable then (false, s, k)
    else
      match mat.state with
      | .powder => updatePowder s r k x y mat
      | .liquid => updateLiquid s r k x y cell mat
      | .gas => updateGas s r k x y cell mat
      | .energy => updateEnergy s r k x y cell mat
      | .solid => updateSolid s r k x y mat

/-! ## Interactions engine (src/js/interactions.js) -/

/-- Translation of `String.includes` of JS (case-sensitive substring test). -/
def strContains (s pat : String) : Bool :=
  (List.range (s.toList.length + 1)).any
    (fun i => pat.toList.isPrefixOf (s.toList.drop i))

/-- The keys of the `getNeighbors` object, in insertion order (which is
the `Object.values` / `Object.entries` iteration order). -/
inductive NKey where
  | above | below | left | right | aboveLeft | aboveRight | belowLeft | belowRight
deriving DecidableEq, Repr

/-- The JS property-name string of each neighbour key. -/
def NKey.str : NKey → String
  | .above => "above"
  | .below => "below"
  | .left => "left"
  | .right => "right"
  | .aboveLeft => "aboveLeft"
  | .aboveRight => "aboveRight"
  | .belowLeft => "belowLeft"
  | .belowRight => "belowRight"

/-- Translation of `key.includes('Left') ? x - 1 : key.includes('Right') ? x + 1 : x`
as written in checkMixing / checkConduction / checkErosion.  Note the
capital L and R: the direct `left` and `right` keys match neither
pattern, so for them this evaluates to `x` itself. -/
def keyNx (key : NKey) (x : Int) : Int :=
  if strContains key.str "Left" then x - 1
  else if strContains key.str "Right" then x + 1
  else x

/-- Translation of `key.includes('above') ? y - 1 : key.includes('below') ? y + 1 : y`. -/
def keyNy (key : NKey) (y : Int) : Int :=
  if strContains key.str "above" then y - 1
  else if strContains key.str "below" then y + 1
  else y

/-- Translation of `getNeighbors(x, y)`: the 8 neighbour cells keyed in insertion
order. -/
def getNeighbors (s : Sim) (x y : Int) : List (NKey × Cell) :=
  [(.above, getCell s x (y - 1)),
   (.below, getCell s x (y + 1)),
   (.left, getCell s (x - 1) y),
   (.right, getCell s (x + 1) y),
   (.aboveLeft, getCell s (x - 1) (y - 1)),
   (.aboveRight, getCell s (x + 1) (y - 1)),
   (.belowLeft, getCell s (x - 1) (y + 1)),
   (.belowRight, getCell s (x + 1) (y + 1))]

/-- Loop of `checkMelting` for an ICE cell over `Object.values`: on a
qualifying heat-source neighbour draw; on success set WATER and return,
on failure continue with the next neighbour. -/
def meltIceLoop (s : Sim) (r : RSrc) (k : Nat) (x y : Int) (mat : Material) :
    List (NKey × Cell) → Bool × Sim × Nat
  | [] => (false, s, k)
  | (_, nb) :: rest =>
      let nm := getMaterial nb.id
      if nm.temperature > mat.meltTemp + 50 ∨ nb.id = FIRE ∨ nb.id = LAVA then
        if r k < 5/100 then
          let (s1, k1) := setCell s x y WATER r (k + 1)
          (true, s1, k1)
        else meltIceLoop s r (k + 1) x y mat rest
      else meltIceLoop s r k x y mat rest

/-- Loop of `checkMelting` for a WATER cell: evaporate next to
FIRE/LAVA. -/
def meltWaterLoop (s : Sim) (r : RSrc) (k : Nat) (x y : Int) :
    List (NKey × Cell) → Bool × Sim × Nat
  | [] => (false, s, k)
  | (_, nb) :: rest =>
      if nb.id = FIRE ∨ nb.id = LAVA then
        if r k < 1/10 then
          let (s1, k1) := setCell s x y STEAM r (k + 1)
          (true, s1, k1)
        else meltWaterLoop s r (k + 1) x y rest
      else meltWaterLoop s r k x y rest

/-- Translation of `checkMelting(x, y, cell, mat, neighbors)`. -/
def checkMelting (s : Sim) (r : RSrc) (k : Nat) (x y : Int) (cell : Cell)
    (mat : Material) (nbs : List (NKey × Cell)) : Bool × Sim × Nat :=
  if cell.id = ICE then
    let (c, s1, k1) := meltIceLoop s r k x y mat nbs
    if c then (true, s1, k1)
    else if cell.id = WATER then meltWaterLoop s1 r k1 x y nbs
    else (false, s1, k1)
  else if cell.id = WATER then meltWaterLoop s r k x y nbs
  else (false, s, k)

/-- Translation of `checkBurning`'s scan for an ignition source (`break` on the first
hit; no draws). -/
def findIgnition : List (NKey × Cell) → Bool
  | [] => false
  | (_, nb) :: rest =>
      let nm := getMaterial nb.id
      if nm.ignites ∨ nb.id = FIRE then true else findIgnition rest

/-- Translation of `checkBurning(x, y, cell, mat, neighbors)`: the per-material switch
after an ignition source has been found. -/
def checkBurning (s : Sim) (r : RSrc) (k : Nat) (x y : Int) (cell : Cell)
    (mat : Material) (nbs : List (NKey × Cell)) : Bool × Sim × Nat :=
  if ¬mat.flammable then (false, s, k)
  else if ¬findIgnition nbs then (false, s, k)
  else if cell.id = WOOD then
    if r k < 2/100 then
      let (s1, k1) := setCell s x y FIRE r (k + 1)
      if r k1 < 3/10 then
        let below := (nbs.getD 1 (.below, boundaryCell)).2
        if below.id = AIR then
          let (s2, k2) := setCell s1 x (y + 1) CHARCOAL r (k1 + 1)
          (true, s2, k2)
        else (true, s1, k1 + 1)
      else (true, s1, k1 + 1)
    else (false, s, k + 1)
  else if cell.id = OIL then
    if r k < 15/100 then
      let (s1, k1) := setCell s x y FIRE r (k + 1)
      (true, s1, k1)
    else (false, s, k + 1)
  else if cell.id = GAS then
    if r k < 1/2 then
      let (s1, k1) := setCell s x y EXPLOSION r (k + 1)
      (true, s1, k1)
    else (false, s, k + 1)
  else if cell.id = GRASS ∨ cell.id = PLANT then
    if r k < 5/100 then
      let (s1, k1) := setCell s x y FIRE r (k + 1)
      (true, s1, k1)
    else (false, s, k + 1)
  else if cell.id = CHARCOAL then
    if r k < 1/100 then
      let (s1, k1) := setCell s x y FIRE r (k + 1)
      (true, s1, k1)
    else (false, s, k + 1)
  else (false, s, k)

/-- Loop of `checkMixing` for a SAND cell: next to WATER become MUD. -/
def mixSandLoop (s : Sim) (r : RSrc) (k : Nat) (x y : Int) :
    List (NKey × Cell) → Bool × Sim × Nat
  | [] => (false, s, k)
  | (_, nb) :: rest =>
      if nb.id = WATER then
        if r k < 5/100 then
          let (s1, k1) := setCell s x y MUD r (k + 1)
          (true, s1, k1)
        else mixSandLoop s r (k + 1) x y rest
      else mixSandLoop s r k x y rest

/-- Translation of `some neighbour is WATER` scan (no draws, `break` on first hit). -/
def hasWaterNeighbor (nbs : List (NKey × Cell)) : Bool :=
  nbs.any (fun p => p.2.id = WATER)

/-- Loop of `checkMixing` for a LAVA cell over `Object.entries`: next to
WATER turn to STONE and write STEAM at the coordinates computed from the
key name. -/
def mixLavaLoop (s : Sim) (r : RSrc) (k : Nat) (x y : Int) :
    List (NKey × Cell) → Bool × Sim × Nat
  | [] => (false, s, k)
  | (key, nb) :: rest =>
      if nb.id = WATER then
        if r k < 3/10 then
          let (s1, k1) := setCell s x y STONE r (k + 1)
          let (s2, k2) := setCell s1 (keyNx key x) (keyNy key y) STEAM r k1
          (true, s2, k2)
        else mixLavaLoop s r (k + 1) x y rest
      else mixLavaLoop s r k x y rest

/-- Loop of `checkMixing` for a WATER cell: next to LAVA become STEAM. -/
def mixWaterLavaLoop (s : Sim) (r : RSrc) (k : Nat) (x y : Int) :
    List (NKey × Cell) → Bool × Sim × Nat
  | [] => (false, s, k)
  | (_, nb) :: rest =>
      if nb.id = LAVA then
        if r k < 3/10 then
          let (s1, k1) := setCell s x y STEAM r (k + 1)
          (true, s1, k1)
        else mixWaterLavaLoop s r (k + 1) x y rest
      else mixWaterLavaLoop s r k x y rest

/-- Translation of `checkMixing(x, y, cell, mat, neighbors)`. -/
def checkMixing (s : Sim) (r : RSrc) (k : Nat) (x y : Int) (cell : Cell)
    (nbs : List (NKey × Cell)) : Bool × Sim × Nat :=
  if cell.id = SAND then
    mixSandLoop s r k x y nbs
  else if cell.id = DIRT then
    let above := (nbs.getD 0 (.above, boundaryCell)).2
    if above.id = AIR then
      if hasWaterNeighbor nbs then
        if r k < 1/1000 then
          let (s1, k1) := setCell s x (y - 1) GRASS r (k + 1)
          (true, s1, k1)
        else (false, s, k + 1)
      else (false, s, k)
    else (false, s, k)
  else if cell.id = LAVA then
    mixLavaLoop s r k x y nbs
  else if cell.id = WATER then
    mixWaterLavaLoop s r k x y nbs
  else (false, s, k)

/-- The `dirs` array of the grass branch of `checkGrowing`. -/
def grassDirs : List (Int × Int) := [(-1, 0), (1, 0), (0, 1)]

/-- Loop over `dirs` of the grass branch (fresh `getCell` reads, no
draws). -/
def growGrassLoop (s : Sim) (r : RSrc) (k : Nat) (x y : Int) :
    List (Int × Int) → Bool × Sim × Nat
  | [] => (false, s, k)
  | (dx, dy) :: rest =>
      let neighbor := getCell s (x + dx) (y + dy)
      let above := getCell s (x + dx) (y + dy - 1)
      if neighbor.id = DIRT ∧ above.id = AIR then
        let (s1, k1) := setCell s (x + dx) (y + dy - 1) GRASS r k
        (true, s1, k1)
      else growGrassLoop s r k x y rest

/-- Translation of `checkGrowing(x, y, cell, mat, neighbors)`. -/
def checkGrowing (s : Sim) (r : RSrc) (k : Nat) (x y : Int) (cell : Cell)
    (nbs : List (NKey × Cell)) : Bool × Sim × Nat :=
  let (c1, s1, k1) :=
    if cell.id = GRASS then
      if r k < 2/1000 then growGrassLoop s r (k + 1) x y grassDirs
      else (false, s, k + 1)
    else (false, s, k)
  if c1 then (true, s1, k1)
  else
    if cell.id = PLANT then
      let above := (nbs.getD 0 (.above, boundaryCell)).2
      if above.id = AIR then
        if r k1 < 1/1000 then
          if hasWaterNeighbor nbs then
            let (s2, k2) := setCell s1 x (y - 1) PLANT r (k1 + 1)
            (true, s2, k2)
          else (false, s1, k1 + 1)
        else (false, s1, k1 + 1)
      else (false, s1, k1)
    else (false, s1, k1)

/-- Loop of `checkConduction` for an ELECTRICITY cell: for each
conductive non-electric neighbour, a 50% draw and then a 30% draw before
overwriting it with ELECTRICITY; the loop never returns early and the
check always reports `false`. -/
def conductLoop (s : Sim) (r : RSrc) (k : Nat) (x y : Int) :
    List (NKey × Cell) → Sim × Nat
  | [] => (s, k)
  | (key, nb) :: rest =>
      let nm := getMaterial nb.id
      if nm.conductive ∧ nb.id ≠ ELECTRICITY then
        if r k < 1/2 then
          if r (k + 1) < 3/10 then
            let (s1, k1) := setCell s (keyNx key x) (keyNy key y) ELECTRICITY r (k + 2)
            conductLoop s1 r k1 x y rest
          else conductLoop s r (k + 2) x y rest
        else conductLoop s r (k + 1) x y rest
      else conductLoop s r k x y rest

/-- Translation of `checkConduction(x, y, cell, mat, neighbors)`. -/
def checkConduction (s : Sim) (r : RSrc) (k : Nat) (x y : Int) (cell : Cell)
    (nbs : List (NKey × Cell)) : Bool × Sim × Nat :=
  if cell.id = ELECTRICITY then
    let (s1, k1) := conductLoop s r k x y nbs
    (false, s1, k1)
  else (false, s, k)

/-- Loop of `checkErosion` for a WATER cell: convert a SAND or DIRT
neighbour (at the key-derived coordinates) to MUD. -/
def erosionLoop (s : Sim) (r : RSrc) (k : Nat) (x y : Int) :
    List (NKey × Cell) → Bool × Sim × Nat
  | [] => (false, s, k)
  | (key, nb) :: rest =>
      if nb.id = SAND ∨ nb.id = DIRT then
        if r k < 5/10000 then
          let (s1, k1) := setCell s (keyNx key x) (keyNy key y) MUD r (k + 1)
          (true, s1, k1)
        else erosionLoop s r (k + 1) x y rest
      else erosionLoop s r k x y rest

/-- Translation of `checkErosion(x, y, cell, mat, neighbors)`. -/
def checkErosion (s : Sim) (r : RSrc) (k : Nat) (x y : Int) (cell : Cell)
    (nbs : List (NKey × Cell)) : Bool × Sim × Nat :=
  if cell.id = WATER then erosionLoop s r k x y nbs
  else (false, s, k)

/-- Translation of `InteractionsEngine.update(x, y)`: captures the cell record, its
material and the neighbour records once, then evaluates all six rule
families in order — `changed = check(...) || changed` calls every family
regardless of whether an earlier one already applied, passing the stale
captured records. -/
def interactionsUpdate (s : Sim) (r : RSrc) (k : Nat) (x y : Int) :
    Bool × Sim × Nat :=
  let cell := getCell s x y
  if cell.id = AIR then (false, s, k)
  else
    let mat := getMaterial cell.id
    let nbs := getNeighbors s x y
    let (c1, s1, k1) := checkMelting s r k x y cell mat nbs
    let (c2, s2, k2) := checkBurning s1 r k1 x y cell mat nbs
    let (c3, s3, k3) := checkMixing s2 r k2 x y cell nbs
    let (c4, s4, k4) := checkGrowing s3 r k3 x y cell nbs
    let (c5, s5, k5) := checkConduction s4 r k4 x y cell nbs
    let (c6, s6, k6) := checkErosion s5 r k5 x y cell nbs
    (c1 || c2 || c3 || c4 || c5 || c6, s6, k6)

/-! ## Tick orchestrator, dynamic colours, brush and line
(src/js/simulation.js) -/

/-- The cell coordinates visited by the physics sweep of `tick`, in
order: rows bottom-to-top, columns left-to-right on even generations
and right-to-left on odd ones. -/
def physPoints (w h : Int) (leftToRight : Bool) : List (Int × Int) :=
  ((List.range h.toNat).reverse).flatMap
    (fun yy =>
      (if leftToRight then List.range w.toNat
       else (List.range w.toNat).reverse).map (fun xx => ((xx : Int), (yy : Int))))

/-- The cell coordinates at which `tick` calls
`interactions.update(x, y)` (on even generations): rows bottom-to-top,
columns left-to-right, and only cells with `(x + y) % 3 === 0`. -/
def interactionPoints (w h : Int) : List (Int × Int) :=
  ((List.range h.toNat).reverse).flatMap
    (fun yy =>
      ((List.range w.toNat).map (fun xx => ((xx : Int), (yy : Int)))).filter
        (fun p => (p.1 + p.2) % 3 = 0))

/-- Translation of `updateDynamicColors()`: iterate the dynamic-cell set in insertion
order; resample and rewrite the three RGB bytes of every cell whose
current material has a function colour. -/
def updateDynamicColors (s : Sim) (r : RSrc) (k : Nat) : Sim × Nat :=
  s.dynamicCells.foldl
    (fun acc idx =>
      let cell := acc.1.grid.getD idx airCell
      let mat := getMaterial cell.id
      if mat.color.isFn then
        let (rgb, k1) := sampleColor mat.color r acc.2
        ({ acc.1 with colorCache :=
            (((acc.1.colorCache.set (idx * 4) (toByte rgb.1)).set
              (idx * 4 + 1) (toByte rgb.2.1)).set
              (idx * 4 + 2) (toByte rgb.2.2)) }, k1)
      else acc)
    (s, k)

/-- Translation of `tick()`: one generation — increment the frame counter, run the
physics sweep, run the interaction sweep on even generations, refresh
dynamic colours. -/
def tick (s : Sim) (r : RSrc) (k : Nat) : Sim × Nat :=
  let s0 := { s with frameCount := s.frameCount + 1 }
  let leftToRight := s0.frameCount % 2 = 0
  let (s1, k1) :=
    (physPoints s0.width s0.height leftToRight).foldl
      (fun acc p =>
        let (_, s2, k2) := physicsUpdate acc.1 r acc.2 p.1 p.2
        (s2, k2))
      (s0, k)
  let (s3, k3) :=
    if s1.frameCount % 2 = 0 then
      (interactionPoints s1.width s1.height).foldl
        (fun acc p =>
          let (_, s4, k4) := interactionsUpdate acc.1 r acc.2 p.1 p.2
          (s4, k4))
        (s1, k1)
    else (s1, k1)
  updateDynamicColors s3 r k3

/-- The list of brush offsets `dy ∈ [-radius, radius]`,
`dx ∈ [-radius, radius]`, in loop order. -/
def brushOffsets (radius : Int) : List (Int × Int) :=
  ((List.range (2 * radius + 1).toNat).map (fun i => -radius + (i : Int))).flatMap
    (fun dy =>
      ((List.range (2 * radius + 1).toNat).map (fun i => -radius + (i : Int))).map
        (fun dx => (dx, dy)))

/-- Translation of `drawBrush(centerX, centerY, materialId, radius, shape)`: each
in-range cell inside the (squared-radius) circle is set with 85%
probability. -/
def drawBrush (s : Sim) (r : RSrc) (k : Nat) (cx cy mid radius : Int)
    (circle : Bool) : Sim × Nat :=
  let radiusSq := radius * radius
  (brushOffsets radius).foldl
    (fun acc p =>
      let x := cx + p.1
      let y := cy + p.2
      if x < 0 ∨ x ≥ acc.1.width ∨ y < 0 ∨ y ≥ acc.1.height then acc
      else if circle ∧ p.1 * p.1 + p.2 * p.2 > radiusSq then acc
      else
        if r acc.2 < 85/100 then
          setCell acc.1 x y mid r (acc.2 + 1)
        else (acc.1, acc.2 + 1))
    (s, k)

/-- The body of the `while (true)` Bresenham loop of `drawLine`,
written with explicit fuel; `none` means the fuel ran out before the
`x0 === x1 && y0 === y1` break was reached.  `dx`, `dy`, `sx`, `sy` are
the loop-invariant values computed before the loop. -/
def drawLineLoop (r : RSrc) (mid radius : Int) (x1 y1 sx sy dx dy : Int) :
    Nat → Sim → Nat → Int → Int → Int → Option (Sim × Nat)
  | 0, _, _, _, _, _ => none
  | fuel + 1, s, k, x0, y0, err =>
      let (s1, k1) := drawBrush s r k x0 y0 mid radius true
      if x0 = x1 ∧ y0 = y1 then some (s1, k1)
      else
        let e2 := 2 * err
        let errA := if e2 > -dy then err - dy else err
        let x0A := if e2 > -dy then x0 + sx else x0
        let errB := if e2 < dx then errA + dx else errA
        let y0A := if e2 < dx then y0 + sy else y0
        drawLineLoop r mid radius x1 y1 sx sy dx dy fuel s1 k1 x0A y0A errB

/-- Translation of `drawLine(x0, y0, x1, y1, materialId, radius)`, supplied with fuel
`|x1 - x0| + |y1 - y0| + 1`; the termination theorem shows this fuel
always suffices, i.e. the source's unbounded loop terminates. -/
def drawLine (s : Sim) (r : RSrc) (k : Nat) (x0 y0 x1 y1 mid radius : Int) :
    Option (Sim × Nat) :=
  let dx := |x1 - x0|
  let dy := |y1 - y0|
  let sx : Int := if x0 < x1 then 1 else -1
  let sy : Int := if y0 < y1 then 1 else -1
  drawLineLoop r mid radius x1 y1 sx sy dx dy (dx + dy + 1).toNat s k x0 y0 (dx - dy)

/-- A single World Grid mutation, for stating reachability by arbitrary
`setCell` / `swap` sequences. -/
inductive Op where
  | set (x y mid : Int)
  | swp (x1 y1 x2 y2 : Int)

/-- Apply a list of operations in order (threading the random draw
counter through the `setCell` colour sampling). -/
def applyOps (r : RSrc) : List Op → Sim × Nat → Sim × Nat
  | [], acc => acc
  | .set x y mid :: rest, acc => applyOps r rest (setCell acc.1 x y mid r acc.2)
  | .swp x1 y1 x2 y2 :: rest, acc =>
      applyOps r rest (swapCells acc.1 x1 y1 x2 y2, acc.2)

/-- The number of grid cells whose material id is not AIR. -/
def countNonAir (s : Sim) : Int :=
  ((s.grid.filter (fun c => c.id ≠ AIR)).length : Int)

/-! ## Concrete scenario states used by the claim theorems -/

/-- The constant random stream 0: every `Math.random() < p` probability
check passes (`0 < p` for each probability constant of the source), and
every `Math.random() > q` check fails. -/
def rngZero : RSrc := fun _ => 0

/-- The constant random stream 1/10: all interaction probability checks
with threshold above 1/10 pass, and the lava viscosity throttle
`Math.random() > 1/12` always skips the lava's movement, pinning it in
place. -/
def rngTenth : RSrc := fun _ => 1/10

/-- Fallback value for unwrapping `construct` results in concrete
scenarios (never reached: `construct` succeeds for all dimensions used
below). -/
def fallbackSim : Sim :=
  { width := 0, height := 0, grid := [], colorCache := [], dynamicCells := [],
    paused := true, speed := 1, ticksPerFrame := 1, frameCount := 0,
    particleCount := 0 }

/-- Unwrap a successful construction. -/
def construct0 (w h : Int) : Sim :=
  ((construct w h rngZero 0).getD (fallbackSim, 0)).1

/-- C2 scenario: a 1-wide, 3-tall grid with SAND at (0,0), WATER at
(0,1), FIRE at (0,2). -/
def c2State : Sim :=
  (setCell (setCell (setCell (construct0 1 3) 0 0 SAND rngZero 0).1
    0 1 WATER rngZero 0).1 0 2 FIRE rngZero 0).1

/-- C3 scenario: a 1-wide, 3-tall grid with STEAM at the bottom cell
(0,2). -/
def c3State : Sim :=
  (setCell (construct0 1 3) 0 2 STEAM rngZero 0).1

/-- C4 scenario: a 2-wide, 1-tall grid with FIRE (a procedural-colour
material) at (0,0). -/
def c4State : Sim :=
  (setCell (construct0 2 1) 0 0 FIRE rngZero 0).1

/-- C6 scenario, exactly as the claim states it: LAVA at (5,5) and
WATER at (6,5) on an otherwise empty 7×6 grid. -/
def c6Claim : Sim :=
  (setCell (setCell (construct0 7 6) 5 5 LAVA rngZero 0).1 6 5 WATER rngZero 0).1

/-- C6 amended scenario: LAVA at (0,3) and WATER directly above it at
(0,2) on an otherwise empty 1-wide, 4-tall grid (so `(0+3) % 3 = 0`
makes the lava cell part of the interaction schedule, and the
single-width column pins both cells in place under `rngTenth`). -/
def c6Amend : Sim :=
  (setCell (setCell (((construct 1 4 rngTenth 0).getD (fallbackSim, 0)).1)
    0 3 LAVA rngTenth 0).1 0 2 WATER rngTenth 0).1

/-- C8 scenario: a 2-wide, 1-tall grid with LAVA (procedural colour) in
both cells. -/
def c8State : Sim :=
  (setCell (setCell (construct0 2 1) 0 0 LAVA rngZero 0).1 1 0 LAVA rngZero 0).1

/-- C9 witness scenario: a 1×1 grid holding a single EXPLOSION cell
(all eight neighbours are the synthetic immovable boundary). -/
def c9State : Sim :=
  (setCell (construct0 1 1) 0 0 EXPLOSION rngZero 0).1

/-! ## Helper lemmas -/

attribute [local semireducible] Rat.mul Rat.add Rat.sub Rat.inv

set_option maxRecDepth 100000

theorem foldl_preserves {α β : Type} (step : β → α → β) (P : β → Prop)
    (h : ∀ b a, P b → P (step b a)) : ∀ (l : List α) (b : β), P b → P (l.foldl step b) := by
  intro l
  induction l with
  | nil => intro b hb; exact hb
  | cons a t ih => intro b hb; exact ih (step b a) (h b a hb)

theorem foldl_fixed {α β : Type} (step : β → α → β) (b : β) (l : List α)
    (h : ∀ a ∈ l, step b a = b) : l.foldl step b = b := by
  induction l with
  | nil => rfl
  | cons a t ih =>
      have ha := h a (List.mem_cons_self a t)
      rw [List.foldl_cons, ha]
      exact ih (fun a' ha' => h a' (List.mem_cons_of_mem a ha'))

theorem getD_set_ne {l : List Cell} {i j : Nat} {c d : Cell} (h : i ≠ j) :
    (l.set i c).getD j d = l.getD j d := by
  simp [List.getD_eq_getElem?_getD, List.getElem?_set, h]

theorem getD_set_self {l : List Cell} {i : Nat} {c d : Cell} (h : i < l.length) :
    (l.set i c).getD i d = c := by
  simp [List.getD_eq_getElem?_getD, List.getElem?_set, h]

/-- Row-major index bound: an in-range coordinate addresses a cell
inside a `width * height` grid. -/
theorem idx_lt {w h x y : Int} (hx0 : 0 ≤ x) (hxw : x < w) (hy0 : 0 ≤ y) (hyh : y < h) :
    (y * w + x).toNat < (w * h).toNat := by
  have hw : 0 < w := lt_of_le_of_lt hx0 hxw
  have h1 : y * w ≤ (h - 1) * w := mul_le_mul_of_nonneg_right (by omega) (le_of_lt hw)
  have h2 : (h - 1) * w + w = w * h := by ring
  have h3 : 0 ≤ y * w := mul_nonneg hy0 (le_of_lt hw)
  omega

/-- Row-major indexing is injective on in-range coordinates. -/
theorem idx_inj {w h x y x2 y2 : Int} (hx0 : 0 ≤ x) (hxw : x < w) (hy0 : 0 ≤ y) (hyh : y < h)
    (hx20 : 0 ≤ x2) (hx2w : x2 < w) (hy20 : 0 ≤ y2) (hy2h : y2 < h)
    (hne : (x2, y2) ≠ (x, y)) : (y2 * w + x2).toNat ≠ (y * w + x).toNat := by
  intro hEq
  have hw : 0 < w := lt_of_le_of_lt hx0 hxw
  have h3 : 0 ≤ y * w := mul_nonneg hy0 (le_of_lt hw)
  have h4 : 0 ≤ y2 * w := mul_nonneg hy20 (le_of_lt hw)
  have heq : y2 * w + x2 = y * w + x := by omega
  have hyy : y2 = y := by
    by_contra hne2
    rcases lt_or_gt_of_ne hne2 with hlt | hgt
    · have h5 : (y2 + 1) * w ≤ y * w := mul_le_mul_of_nonneg_right (by omega) (le_of_lt hw)
      have h6 : (y2 + 1) * w = y2 * w + w := by ring
      omega
    · have h5 : (y + 1) * w ≤ y2 * w := mul_le_mul_of_nonneg_right (by omega) (le_of_lt hw)
      have h6 : (y + 1) * w = y * w + w := by ring
      omega
  subst hyy
  have hxx : x2 = x := by omega
  exact hne (by simp [hxx])

theorem setCell_oob {s : Sim} {x y mid : Int} {r : RSrc} {k : Nat}
    (h : x < 0 ∨ x ≥ s.width ∨ y < 0 ∨ y ≥ s.height) :
    setCell s x y mid r k = (s, k) := by
  unfold setCell setCellFull
  rw [if_pos h]

theorem setCell_width (s : Sim) (x y mid : Int) (r : RSrc) (k : Nat) :
    (setCell s x y mid r k).1.width = s.width := by
  unfold setCell setCellFull
  split <;> rfl

theorem setCell_height (s : Sim) (x y mid : Int) (r : RSrc) (k : Nat) :
    (setCell s x y mid r k).1.height = s.height := by
  unfold setCell setCellFull
  split <;> rfl

theorem setCell_grid_inrange (s : Sim) (x y : Int) (mid : Int) (r : RSrc) (k : Nat)
    (hx0 : 0 ≤ x) (hxw : x < s.width) (hy0 : 0 ≤ y) (hyh : y < s.height) :
    (setCell s x y mid r k).1.grid =
      s.grid.set (y * s.width + x).toNat
        { id := mid, life := (getMaterial mid).lifetime,
          temperature :=
            if (getMaterial mid).temperature = 0 then 20
            else (getMaterial mid).temperature } := by
  unfold setCell setCellFull
  rw [if_neg (by omega)]
  rfl

theorem setCell_length (s : Sim) (x y mid : Int) (r : RSrc) (k : Nat) :
    (setCell s x y mid r k).1.grid.length = s.grid.length := by
  unfold setCell setCellFull
  split
  · rfl
  · exact List.length_set s.grid _ _

/-- Reading back the cell just written by an in-range `setCell` (on a
well-formed grid). -/
theorem getCell_setCell_self {s : Sim} {x y : Int} (mid : Int) (r : RSrc) (k : Nat)
    (hx0 : 0 ≤ x) (hxw : x < s.width) (hy0 : 0 ≤ y) (hyh : y < s.height)
    (hlen : s.grid.length = (s.width * s.height).toNat) :
    getCell (setCell s x y mid r k).1 x y =
      { id := mid, life := (getMaterial mid).lifetime,
        temperature :=
          if (getMaterial mid).temperature = 0 then 20
          else (getMaterial mid).temperature } := by
  have hw := setCell_width s x y mid r k
  have hh := setCell_height s x y mid r k
  unfold getCell
  rw [hw, hh, if_neg (by omega), setCell_grid_inrange s x y mid r k hx0 hxw hy0 hyh]
  exact getD_set_self (by rw [hlen]; exact idx_lt hx0 hxw hy0 hyh)

/-- Translation of `setCell` leaves every other cell unchanged. -/
theorem getCell_setCell_ne {s : Sim} {x y : Int} (mid : Int) (r : RSrc) (k : Nat)
    {x2 y2 : Int} (hne : (x2, y2) ≠ (x, y)) :
    getCell (setCell s x y mid r k).1 x2 y2 = getCell s x2 y2 := by
  have hw := setCell_width s x y mid r k
  have hh := setCell_height s x y mid r k
  by_cases hin : x < 0 ∨ x ≥ s.width ∨ y < 0 ∨ y ≥ s.height
  · rw [setCell_oob hin]
  · by_cases hin2 : x2 < 0 ∨ x2 ≥ s.width ∨ y2 < 0 ∨ y2 ≥ s.height
    · unfold getCell
      rw [if_pos (by omega), if_pos (by omega)]
    · have hx0 : (0:Int) ≤ x := by omega
      have hxw : x < s.width := by omega
      have hy0 : (0:Int) ≤ y := by omega
      have hyh : y < s.height := by omega
      unfold getCell
      rw [hw, hh, if_neg (by omega), if_neg (by omega),
        setCell_grid_inrange s x y mid r k hx0 hxw hy0 hyh]
      exact getD_set_ne (Ne.symm (idx_inj hx0 hxw hy0 hyh
        (by omega) (by omega) (by omega) (by omega) hne))

/-! ## Claim theorems -/

/-- C2 counterexample.  In `c2State` (SAND above, WATER in the middle,
FIRE below, in one 1-wide column), a single interaction-step evaluation
of the WATER cell at (0,1) under the all-pass random source applies TWO
rule families: the phase-change family turns the evaluated cell to
STEAM, and afterwards the erosion family — still evaluated, against the
stale pre-evaluation WATER identity — also converts the SAND neighbour
above to MUD.  This refutes the claim that evaluation short-circuits on
the first family that applies, so that at most one family's
transformation is applied per cell per evaluation. -/
theorem c2_counterexample :
    (getCell c2State 0 1).id = WATER ∧
    (getCell c2State 0 0).id = SAND ∧
    (getCell (interactionsUpdate c2State rngZero 0 0 1).2.1 0 1).id = STEAM ∧
    (getCell (interactionsUpdate c2State rngZero 0 0 1).2.1 0 0).id = MUD := by
  refine ⟨by decide, by decide, by decide, by decide⟩

/-- C3, evaluated at the failing input.  In `c3State` a single STEAM
cell sits at the bottom of a 1×3 column with `life = 300`.  One `tick`
under the all-pass source processes that same gas cell THREE times (once
in each row of the bottom-to-top sweep, since the "last-updated
generation" stamp is read but never written): it rises two cells and its
life counter is decremented three times, ending at `(0,0)` with
`life = 297`.  Under the claim it would have been visited once: one
decrement and one move, ending at `(0,1)` with `life = 299`. -/
theorem c3_gas_revisited_same_tick :
    getCell (tick c3State rngZero 0).1 0 0 =
      { id := STEAM, life := 297, temperature := 100 } ∧
    (getCell (tick c3State rngZero 0).1 0 1).id = AIR ∧
    (getCell (tick c3State rngZero 0).1 0 2).id = AIR ∧
    getCell c3State 0 2 = { id := STEAM, life := 300, temperature := 100 } := by
  refine ⟨by decide, by decide, by decide, by decide⟩

/-- C4, evaluated at the failing input.  In `c4State` the
procedural-colour FIRE cell sits at grid index 0 of a 2×1 grid and the
dynamic-cell index is `[0]`.  After `swap(0,0,1,0)` the fire occupies
index 1, but the dynamic-cell index is still `[0]`: the second
`has(idx2)` conditional of `swap` observes the `add(idx2)` performed by
the first conditional and moves the membership straight back.  So after
this single swap the dynamic-cell index does not equal the set of
indices whose material has a procedural colour (index 1 holds FIRE but
is missing; index 0 holds AIR but is present). -/
theorem c4_swap_dynamic_index_diverges :
    c4State.dynamicCells = [0] ∧
    (getCell (swapCells c4State 0 0 1 0) 1 0).id = FIRE ∧
    (getMaterial FIRE).color.isFn = true ∧
    (getCell (swapCells c4State 0 0 1 0) 0 0).id = AIR ∧
    (getMaterial AIR).color.isFn = false ∧
    (swapCells c4State 0 0 1 0).dynamicCells = [0] := by
  refine ⟨by decide, by decide, by decide, by decide, by decide, by decide⟩

/-- C8, evaluated at the failing input.  In `c8State` both cells of a
2×1 grid hold LAVA (procedural colour), so the dynamic-cell index is
`[0, 1]`.  Applying `swap(0,0,1,0)` twice restores both grid records
exactly, but the dynamic-cell index ends as `[0]`: membership of index 1
is lost (the second conditional of each swap observes the first
conditional's insertion), refuting the claim that double swap restores
dynamic-cell-index membership. -/
theorem c8_double_swap_not_involution :
    c8State.dynamicCells = [0, 1] ∧
    (swapCells (swapCells c8State 0 0 1 0) 0 0 1 0).grid = c8State.grid ∧
    (swapCells (swapCells c8State 0 0 1 0) 0 0 1 0).colorCache = c8State.colorCache ∧
    (swapCells (swapCells c8State 0 0 1 0) 0 0 1 0).dynamicCells = [0] := by
  refine ⟨by decide, by decide, by decide, by decide⟩

/-- C6 counterexample.  The interaction sweep of `tick` only evaluates
cells with `(x + y) % 3 = 0`, and `(5 + 5) % 3 = 1`, `(6 + 5) % 3 = 2`:
on a 7×6 grid neither (5,5) nor (6,5) is ever passed to
`interactionsUpdate`, on any tick, so the interaction step is never
"actually evaluated at those coordinates" as the claim requires, and no
rule can ever write STONE at (5,5).  Concretely, from the claim's exact
configuration (`c6Claim`), two ticks under the all-pass random source
(the first even — "qualifying" — generation) leave WATER at (5,5) and
AIR at (6,5): the lava has moved and then been destroyed by the
mis-addressed steam write of the lava+water rule, and no STONE/STEAM
pair ever appears at the claimed coordinates. -/
theorem c6_counterexample :
    (5, 5) ∉ interactionPoints 7 6 ∧
    (6, 5) ∉ interactionPoints 7 6 ∧
    c6Claim.width = 7 ∧ c6Claim.height = 6 ∧
    (getCell c6Claim 5 5).id = LAVA ∧ (getCell c6Claim 6 5).id = WATER ∧
    (getCell (tick (tick c6Claim rngZero 0).1 rngZero 0).1 5 5).id = WATER ∧
    (getCell (tick (tick c6Claim rngZero 0).1 rngZero 0).1 6 5).id = AIR := by
  refine ⟨by decide, by decide, by decide, by decide, by decide, by decide,
    by decide, by decide⟩

/-- C6 amended.  Place LAVA at (0,3) and WATER directly above it at
(0,2) on an otherwise empty 1×4 grid — coordinates chosen so that
`(0 + 3) % 3 = 0` puts the lava cell on the interaction schedule, and
the water sits above the lava because the key-name lookup
`'right'.includes('Right')` of the source is case-sensitively false, so
a horizontally adjacent WATER would have its STEAM written onto the lava
cell itself; only `above`/`below`/diagonal neighbours receive the steam
correctly.  With the random source fixed at the constant 1/10 (every
interaction probability check involved passes, and the lava viscosity
throttle `Math.random() > 1/12` always fires, pinning the lava), the
second tick is the first qualifying (even) generation and performs the
reaction: LAVA+WATER becomes STONE at (0,3) and STEAM at (0,2). -/
theorem c6_reaction_amended :
    (getCell c6Amend 0 3).id = LAVA ∧ (getCell c6Amend 0 2).id = WATER ∧
    (0, 3) ∈ interactionPoints 1 4 ∧
    (getCell (tick c6Amend rngTenth 0).1 0 3).id = LAVA ∧
    (getCell (tick c6Amend rngTenth 0).1 0 2).id = WATER ∧
    (getCell (tick (tick c6Amend rngTenth 0).1 rngTenth 0).1 0 3).id = STONE ∧
    (getCell (tick (tick c6Amend rngTenth 0).1 rngTenth 0).1 0 2).id = STEAM := by
  refine ⟨by decide, by decide, by decide, by decide, by decide, by decide, by decide⟩

/-- C5 counterexample.  `construct(0, 5)` has a non-positive width but
does not fail: the constructor performs no dimension validation, and
`new Array(0 * 5)` succeeds, producing a 0-cell grid.  (The same holds
for `construct(-2, -3)`, where both dimensions are negative but the
product 6 is a valid array length.)  This refutes the claim that
construction fails fast whenever either dimension is non-positive. -/
theorem c5_counterexample :
    (construct 0 5 rngZero 0).isSome = true ∧
    (construct (-2) (-3) rngZero 0).isSome = true := by
  refine ⟨by decide, by decide⟩

theorem updateCellColor_parts (s : Sim) (x y : Int) (r : RSrc) (k : Nat) :
    (updateCellColor s x y r k).1.grid = s.grid ∧
    (updateCellColor s x y r k).1.width = s.width ∧
    (updateCellColor s x y r k).1.height = s.height ∧
    (updateCellColor s x y r k).1.particleCount = s.particleCount ∧
    (updateCellColor s x y r k).1.dynamicCells = s.dynamicCells :=
  ⟨rfl, rfl, rfl, rfl, rfl⟩

theorem updateColorCache_parts (s : Sim) (r : RSrc) (k : Nat) :
    (updateColorCache s r k).1.grid = s.grid ∧
    (updateColorCache s r k).1.width = s.width ∧
    (updateColorCache s r k).1.height = s.height ∧
    (updateColorCache s r k).1.particleCount = s.particleCount ∧
    (updateColorCache s r k).1.dynamicCells = s.dynamicCells := by
  unfold updateColorCache
  refine foldl_preserves _
    (fun acc : Sim × Nat => acc.1.grid = s.grid ∧ acc.1.width = s.width ∧
      acc.1.height = s.height ∧ acc.1.particleCount = s.particleCount ∧
      acc.1.dynamicCells = s.dynamicCells) ?_ _ _ ⟨rfl, rfl, rfl, rfl, rfl⟩
  intro b a hb
  refine foldl_preserves _
    (fun acc : Sim × Nat => acc.1.grid = s.grid ∧ acc.1.width = s.width ∧
      acc.1.height = s.height ∧ acc.1.particleCount = s.particleCount ∧
      acc.1.dynamicCells = s.dynamicCells) ?_ _ _ hb
  intro b2 a2 hb2
  exact ⟨hb2.1, hb2.2.1, hb2.2.2.1, hb2.2.2.2.1, hb2.2.2.2.2⟩

theorem reset_parts (s : Sim) (r : RSrc) (k : Nat) :
    (reset s r k).1.grid = s.grid.map (fun _ => airCell) ∧
    (reset s r k).1.width = s.width ∧
    (reset s r k).1.height = s.height ∧
    (reset s r k).1.particleCount = 0 ∧
    (reset s r k).1.dynamicCells = [] := by
  unfold reset
  exact updateColorCache_parts _ r k

/-- C5 amended.  Construction performs no dimension validation: it
fails (the JS `RangeError` from a negative `new Array(width * height)`
length) exactly when `width * height < 0` — in particular a zero
dimension, or two negative dimensions, are accepted silently — and for
positive dimensions it returns a `width × height` grid in which every
cell is AIR, with particle count 0. -/
theorem c5_construct_amended :
    (∀ (w h : Int) (r : RSrc) (k : Nat), (construct w h r k).isNone = true ↔ w * h < 0) ∧
    (∀ (w h : Int) (r : RSrc) (k : Nat) (p : Sim × Nat), 0 < w → 0 < h →
      construct w h r k = some p →
      p.1.width = w ∧ p.1.height = h ∧
      p.1.grid.length = (w * h).toNat ∧
      (∀ c ∈ p.1.grid, c = airCell) ∧
      p.1.particleCount = 0) := by
  constructor
  · intro w h r k
    unfold construct
    split
    · simpa using by assumption
    · simpa using by omega
  · intro w h r k p hw hh hp
    unfold construct at hp
    rw [if_neg (by have hwh : 0 < w * h := mul_pos hw hh; omega)] at hp
    simp only [Option.some_inj] at hp
    obtain ⟨hg, hwid, hht, hpc, _⟩ := reset_parts
      ({ width := w, height := h,
         grid := List.replicate (w * h).toNat airCell,
         colorCache := List.replicate (w * h * 4).toNat 0,
         dynamicCells := [],
         paused := true, speed := 1, ticksPerFrame := 1,
         frameCount := 0, particleCount := 0 } : Sim) r k
    rw [← hp]
    refine ⟨hwid, hht, ?_, ?_, hpc⟩
    · rw [hg]; simp
    · intro c hc
      rw [hg] at hc
      obtain ⟨c0, _, hc0⟩ := List.mem_map.mp hc
      exact hc0.symm

/-- C5 witness: `construct 3 2` succeeds with positive dimensions, and
its grid is the 6-cell all-AIR grid; `construct 2 (-1)` is refused
(negative product). -/
theorem c5_construct_amended_witness :
    (construct 2 (-1) rngZero 0).isNone = true ∧
    ∃ p, construct 3 2 rngZero 0 = some p ∧ p.1.grid.length = 6 ∧
      (∀ c ∈ p.1.grid, c = airCell) := by
  constructor
  · exact (c5_construct_amended.1 2 (-1) rngZero 0).mpr (by decide)
  · refine ⟨((construct 3 2 rngZero 0).getD (fallbackSim, 0)), by decide, ?_, ?_⟩
    · have := (c5_construct_amended.2 3 2 rngZero 0
        ((construct 3 2 rngZero 0).getD (fallbackSim, 0)) (by decide) (by decide)
        (by decide)).2.2.1
      simpa using this
    · exact (c5_construct_amended.2 3 2 rngZero 0
        ((construct 3 2 rngZero 0).getD (fallbackSim, 0)) (by decide) (by decide)
        (by decide)).2.2.2.1

/-- C7.  `getCell` at any out-of-range coordinate returns the synthetic
immovable boundary cell without reading the cell array, and `setCell`
(with or without `props`) and `swap` given any out-of-range coordinate
(first or second) are complete no-ops: the returned state is the input
state, so every in-bounds cell, the particle count, the colour buffer
and the dynamic-cell index are unchanged. -/
theorem c7_boundary_safety :
    ∀ (s : Sim) (x y : Int), (x < 0 ∨ x ≥ s.width ∨ y < 0 ∨ y ≥ s.height) →
      getCell s x y = boundaryCell ∧
      (getMaterial (getCell s x y).id).immovable = true ∧
      (∀ (mid : Int) (r : RSrc) (k : Nat), setCell s x y mid r k = (s, k)) ∧
      (∀ (mid : Int) (pl pt : Option Int) (r : RSrc) (k : Nat),
        setCellFull s x y mid pl pt r k = (s, k)) ∧
      (∀ x2 y2 : Int, swapCells s x y x2 y2 = s ∧ swapCells s x2 y2 x y = s) := by
  intro s x y h
  have hget : getCell s x y = boundaryCell := by
    unfold getCell; rw [if_pos h]
  refine ⟨hget, by rw [hget]; decide, ?_, ?_, ?_⟩
  · intro mid r k
    exact setCell_oob h
  · intro mid pl pt r k
    unfold setCellFull
    rw [if_pos h]
  · intro x2 y2
    constructor
    · unfold swapCells
      rw [if_pos h]
    · unfold swapCells
      by_cases h2 : x2 < 0 ∨ x2 ≥ s.width ∨ y2 < 0 ∨ y2 ≥ s.height
      · rw [if_pos h2]
      · rw [if_neg h2, if_pos h]

/-- C7 witness: on the concrete 2×1 state `c4State`, the coordinate
(-1, 0) is out of range; `getCell` yields the boundary cell and a
`setCell` / `swap` through it changes nothing. -/
theorem c7_boundary_safety_witness :
    getCell c4State (-1) 0 = boundaryCell ∧
    setCell c4State (-1) 0 WATER rngZero 0 = (c4State, 0) ∧
    swapCells c4State (-1) 0 0 0 = c4State ∧
    swapCells c4State 0 0 (-1) 0 = c4State := by
  have h := c7_boundary_safety c4State (-1) 0 (by left; decide)
  exact ⟨h.1, h.2.2.1 WATER rngZero 0, (h.2.2.2.2 0 0).1, (h.2.2.2.2 0 0).2⟩

theorem countNonAir_eq_countP (s : Sim) :
    countNonAir s = (s.grid.countP (fun c => decide (c.id ≠ AIR)) : Int) := by
  rw [countNonAir, List.countP_eq_length_filter]

theorem countP_set_delta (p : Cell → Bool) (l : List Cell) (i : Nat) (c d : Cell)
    (h : i < l.length) :
    ((l.set i c).countP p : Int) =
      (l.countP p : Int) + (if p c then 1 else 0) - (if p (l.getD i d) then 1 else 0) := by
  have hset := List.countP_set p l i c h
  have hgetD : l.getD i d = l[i] := by
    rw [List.getD_eq_getElem?_getD, List.getElem?_eq_getElem h]
    rfl
  rw [hgetD, hset]
  by_cases hpi : p l[i]
  · have hpos : 0 < l.countP p := by
      rw [List.countP_pos_iff]
      exact ⟨l[i], List.getElem_mem h, hpi⟩
    by_cases hpc : p c <;> simp [hpi, hpc] <;> omega
  · by_cases hpc : p c <;> simp [hpi, hpc]

theorem countP_swap (p : Cell → Bool) (l : List Cell) (i1 i2 : Nat) (d : Cell)
    (h1 : i1 < l.length) (h2 : i2 < l.length) :
    (((l.set i1 (l.getD i2 d)).set i2 (l.getD i1 d)).countP p : Int) = l.countP p := by
  have h2a : i2 < (l.set i1 (l.getD i2 d)).length := by
    rw [List.length_set]; exact h2
  rw [countP_set_delta p _ i2 _ d h2a, countP_set_delta p _ i1 _ d h1]
  by_cases heq : i1 = i2
  · subst heq
    rw [getD_set_self h1]
    split_ifs <;> omega
  · rw [getD_set_ne heq]
    split_ifs <;> omega

/-- Particle-count well-formedness: the counter matches the grid, and
the grid has exactly `width * height` cells. -/
def GridInv (s : Sim) : Prop :=
  s.particleCount = countNonAir s ∧ s.grid.length = (s.width * s.height).toNat

theorem setCell_pc_inrange (s : Sim) (x y mid : Int) (r : RSrc) (k : Nat)
    (hx0 : 0 ≤ x) (hxw : x < s.width) (hy0 : 0 ≤ y) (hyh : y < s.height) :
    (setCell s x y mid r k).1.particleCount =
      (if (s.grid.getD (y * s.width + x).toNat airCell).id = AIR ∧ mid ≠ AIR
       then s.particleCount + 1
       else if (s.grid.getD (y * s.width + x).toNat airCell).id ≠ AIR ∧ mid = AIR
       then s.particleCount - 1
       else s.particleCount) := by
  unfold setCell setCellFull
  rw [if_neg (by omega)]

theorem gridInv_setCell (s : Sim) (x y mid : Int) (r : RSrc) (k : Nat)
    (hinv : GridInv s) : GridInv (setCell s x y mid r k).1 := by
  by_cases hoob : x < 0 ∨ x ≥ s.width ∨ y < 0 ∨ y ≥ s.height
  · rw [setCell_oob hoob]
    exact hinv
  · have hx0 : (0:Int) ≤ x := by omega
    have hxw : x < s.width := by omega
    have hy0 : (0:Int) ≤ y := by omega
    have hyh : y < s.height := by omega
    have hidx : (y * s.width + x).toNat < s.grid.length := by
      rw [hinv.2]; exact idx_lt hx0 hxw hy0 hyh
    constructor
    · rw [setCell_pc_inrange s x y mid r k hx0 hxw hy0 hyh,
        countNonAir_eq_countP, setCell_grid_inrange s x y mid r k hx0 hxw hy0 hyh,
        countP_set_delta _ _ _ _ airCell hidx]
      have hpc := hinv.1
      rw [countNonAir_eq_countP] at hpc
      by_cases hold : (s.grid.getD (y * s.width + x).toNat airCell).id = AIR <;>
        by_cases hmid : mid = AIR <;>
          simp [hold, hmid, AIR] at * <;> omega
    · rw [setCell_length, hinv.2, setCell_width, setCell_height]

theorem swapCells_pc (s : Sim) (x1 y1 x2 y2 : Int) :
    (swapCells s x1 y1 x2 y2).particleCount = s.particleCount := by
  unfold swapCells
  split
  · rfl
  · split <;> rfl

theorem swapCells_width (s : Sim) (x1 y1 x2 y2 : Int) :
    (swapCells s x1 y1 x2 y2).width = s.width := by
  unfold swapCells
  split
  · rfl
  · split <;> rfl

theorem swapCells_height (s : Sim) (x1 y1 x2 y2 : Int) :
    (swapCells s x1 y1 x2 y2).height = s.height := by
  unfold swapCells
  split
  · rfl
  · split <;> rfl

theorem swapCells_grid_inrange (s : Sim) (x1 y1 x2 y2 : Int)
    (h1 : ¬(x1 < 0 ∨ x1 ≥ s.width ∨ y1 < 0 ∨ y1 ≥ s.height))
    (h2 : ¬(x2 < 0 ∨ x2 ≥ s.width ∨ y2 < 0 ∨ y2 ≥ s.height)) :
    (swapCells s x1 y1 x2 y2).grid =
      (s.grid.set (y1 * s.width + x1).toNat
          (s.grid.getD (y2 * s.width + x2).toNat airCell)).set
        (y2 * s.width + x2).toNat
        (s.grid.getD (y1 * s.width + x1).toNat airCell) := by
  unfold swapCells
  rw [if_neg h1, if_neg h2]

theorem gridInv_swapCells (s : Sim) (x1 y1 x2 y2 : Int)
    (hinv : GridInv s) : GridInv (swapCells s x1 y1 x2 y2) := by
  by_cases h1 : x1 < 0 ∨ x1 ≥ s.width ∨ y1 < 0 ∨ y1 ≥ s.height
  · unfold swapCells
    rw [if_pos h1]
    exact hinv
  · by_cases h2 : x2 < 0 ∨ x2 ≥ s.width ∨ y2 < 0 ∨ y2 ≥ s.height
    · unfold swapCells
      rw [if_neg h1, if_pos h2]
      exact hinv
    · have hi1 : (y1 * s.width + x1).toNat < s.grid.length := by
        rw [hinv.2]; exact idx_lt (by omega) (by omega) (by omega) (by omega)
      have hi2 : (y2 * s.width + x2).toNat < s.grid.length := by
        rw [hinv.2]; exact idx_lt (by omega) (by omega) (by omega) (by omega)
      have hgrid := swapCells_grid_inrange s x1 y1 x2 y2 h1 h2
      constructor
      · rw [swapCells_pc, countNonAir_eq_countP, hgrid,
          countP_swap _ _ _ _ airCell hi1 hi2, ← countNonAir_eq_countP]
        exact hinv.1
      · rw [swapCells_width, swapCells_height, hgrid,
          List.length_set, List.length_set]
        exact hinv.2

theorem gridInv_reset (s : Sim) (r : RSrc) (k : Nat)
    (hlen : s.grid.length = (s.width * s.height).toNat) :
    GridInv (reset s r k).1 := by
  obtain ⟨hg, hw, hh, hpc, _⟩ := reset_parts s r k
  constructor
  · rw [hpc, countNonAir_eq_countP, hg]
    have : (s.grid.map (fun _ => airCell)).countP
        (fun c => decide (c.id ≠ AIR)) = 0 := by
      rw [List.countP_eq_zero]
      intro a ha
      obtain ⟨b, _, hb⟩ := List.mem_map.mp ha
      subst hb
      decide
    rw [this]
    rfl
  · rw [hg, List.length_map, hw, hh, hlen]

theorem gridInv_construct (w h : Int) (r : RSrc) (k : Nat) (p : Sim × Nat)
    (hp : construct w h r k = some p) : GridInv p.1 := by
  unfold construct at hp
  by_cases hneg : w * h < 0
  · rw [if_pos hneg] at hp
    cases hp
  · rw [if_neg hneg] at hp
    simp only [Option.some_inj] at hp
    rw [← hp]
    apply gridInv_reset
    simp

theorem gridInv_applyOps (r : RSrc) (ops : List Op) (p : Sim × Nat)
    (hinv : GridInv p.1) : GridInv (applyOps r ops p).1 := by
  induction ops generalizing p with
  | nil => exact hinv
  | cons op rest ih =>
      cases op with
      | set x y mid =>
          exact ih _ (gridInv_setCell p.1 x y mid r p.2 hinv)
      | swp x1 y1 x2 y2 =>
          exact ih _ (gridInv_swapCells p.1 x1 y1 x2 y2 hinv)

/-- C1.  The particle-count invariant: (1) for every state reachable
from a successful construction by any sequence of `setCell` and `swap`
calls — with any coordinates, in-range or not, and any material ids —
`particleCount` equals the number of cells whose material id is not
AIR; (2) an in-range `setCell` changes the counter by exactly +1 on an
AIR-to-non-AIR transition and -1 on a non-AIR-to-AIR transition and 0
otherwise; (3) `reset` re-establishes the equality on any state; (4)
`swap` preserves the equality on any well-formed state. -/
theorem c1_particle_count_invariant :
    (∀ (w h : Int) (r : RSrc) (k : Nat) (p : Sim × Nat), construct w h r k = some p →
      ∀ ops : List Op,
        (applyOps r ops p).1.particleCount = countNonAir (applyOps r ops p).1) ∧
    (∀ (s : Sim) (x y mid : Int) (r : RSrc) (k : Nat),
      0 ≤ x → x < s.width → 0 ≤ y → y < s.height →
      (setCell s x y mid r k).1.particleCount =
        (if (s.grid.getD (y * s.width + x).toNat airCell).id = AIR ∧ mid ≠ AIR
         then s.particleCount + 1
         else if (s.grid.getD (y * s.width + x).toNat airCell).id ≠ AIR ∧ mid = AIR
         then s.particleCount - 1
         else s.particleCount)) ∧
    (∀ (s : Sim) (r : RSrc) (k : Nat), s.grid.length = (s.width * s.height).toNat →
      (reset s r k).1.particleCount = countNonAir (reset s r k).1) ∧
    (∀ (s : Sim) (x1 y1 x2 y2 : Int),
      s.particleCount = countNonAir s → s.grid.length = (s.width * s.height).toNat →
      (swapCells s x1 y1 x2 y2).particleCount = countNonAir (swapCells s x1 y1 x2 y2)) := by
  refine ⟨?_, ?_, ?_, ?_⟩
  · intro w h r k p hp ops
    exact (gridInv_applyOps r ops p (gridInv_construct w h r k p hp)).1
  · intro s x y mid r k hx0 hxw hy0 hyh
    exact setCell_pc_inrange s x y mid r k hx0 hxw hy0 hyh
  · intro s r k hlen
    exact (gridInv_reset s r k hlen).1
  · intro s x1 y1 x2 y2 hpc hlen
    exact (gridInv_swapCells s x1 y1 x2 y2 ⟨hpc, hlen⟩).1

/-- C1 witness: a concrete construction followed by a mixed sequence of
in-range, out-of-range and unknown-id `setCell` / `swap` calls keeps
`particleCount` equal to the number of non-AIR cells. -/
theorem c1_particle_count_invariant_witness :
    ∃ p, construct 3 2 rngZero 0 = some p ∧
      ((applyOps rngZero
          [.set 0 0 SAND, .set 2 1 LAVA, .set 9 9 WATER, .set (-1) 0 FIRE,
           .swp 0 0 1 1, .swp 2 1 7 7, .set 1 1 99, .set 1 1 AIR, .set 0 0 AIR]
          p).1.particleCount =
        countNonAir (applyOps rngZero
          [.set 0 0 SAND, .set 2 1 LAVA, .set 9 9 WATER, .set (-1) 0 FIRE,
           .swp 0 0 1 1, .swp 2 1 7 7, .set 1 1 99, .set 1 1 AIR, .set 0 0 AIR]
          p).1) ∧
      (setCell p.1 0 0 SAND rngZero 0).1.particleCount = p.1.particleCount + 1 := by
  refine ⟨(construct 3 2 rngZero 0).getD (fallbackSim, 0), by decide, ?_, ?_⟩
  · exact c1_particle_count_invariant.1 3 2 rngZero 0 _ (by decide) _
  · have h := c1_particle_count_invariant.2.1
      ((construct 3 2 rngZero 0).getD (fallbackSim, 0)).1 0 0 SAND rngZero 0
      (by decide) (by decide) (by decide) (by decide)
    rw [h]
    decide

theorem getCell_gridSet_ne (s : Sim) (c : Cell) {x y x2 y2 : Int}
    (hx0 : 0 ≤ x) (hxw : x < s.width) (hy0 : 0 ≤ y) (hyh : y < s.height)
    (hne : (x2, y2) ≠ (x, y)) :
    getCell { s with grid := s.grid.set (y * s.width + x).toNat c } x2 y2 =
      getCell s x2 y2 := by
  have hw : ({ s with grid := s.grid.set (y * s.width + x).toNat c } : Sim).width
      = s.width := rfl
  have hh : ({ s with grid := s.grid.set (y * s.width + x).toNat c } : Sim).height
      = s.height := rfl
  by_cases hin2 : x2 < 0 ∨ x2 ≥ s.width ∨ y2 < 0 ∨ y2 ≥ s.height
  · unfold getCell
    rw [hw, hh, if_pos hin2, if_pos hin2]
  · unfold getCell
    rw [hw, hh, if_neg hin2, if_neg hin2]
    show (s.grid.set (y * s.width + x).toNat c).getD (y2 * s.width + x2).toNat airCell
      = s.grid.getD (y2 * s.width + x2).toNat airCell
    exact getD_set_ne (Ne.symm (idx_inj hx0 hxw hy0 hyh
      (by omega) (by omega) (by omega) (by omega) hne))

theorem expDirs_ne_center (x y : Int) :
    ∀ d ∈ expDirs, (x + d.1, y + d.2) ≠ (x, y) := by
  intro d hd
  fin_cases hd <;> simp

theorem explosionPush_noop (s : Sim) (x y dx dy : Int)
    (h : (getCell s (x + dx) (y + dy)).id = AIR ∨
      (getMaterial (getCell s (x + dx) (y + dy)).id).immovable = true) :
    explosionPush s x y dx dy = s := by
  rcases h with h | h
  · simp [explosionPush, h]
  · simp [explosionPush, h]

theorem physicsUpdate_explosion_dispatch (s : Sim) (r : RSrc) (k : Nat) (x y : Int)
    (hexp : (getCell s x y).id = EXPLOSION) :
    physicsUpdate s r k x y =
      updateEnergy s r k x y (getCell s x y) (getMaterial EXPLOSION) := by
  simp only [physicsUpdate, hexp]
  norm_num [AIR, EXPLOSION, getMaterial, STONE, DIRT, SAND, CLAY, METAL, ICE,
    WATER, MUD, OIL, LAVA, STEAM, SMOKE, GAS, GRASS, PLANT, WOOD, CHARCOAL,
    FIRE, ELECTRICITY]

theorem updateEnergy_explosion_alive (s : Sim) (r : RSrc) (k : Nat) (x y : Int)
    (cell : Cell) (hid : cell.id = EXPLOSION)
    (hl : ¬((if cell.life ≠ 0 then cell.life else 3) - 1 ≤ 0)) :
    updateEnergy s r k x y cell (getMaterial EXPLOSION) =
      (false,
        expDirs.foldl (fun acc d => explosionPush acc x y d.1 d.2)
          { s with grid :=
                     s.grid.set (y * s.width + x).toNat
                       { cell with life := (if cell.life ≠ 0 then cell.life else 3) - 1 } },
        k) := by
  simp only [updateEnergy, hid]
  norm_num [getMaterial, STONE, DIRT, SAND, CLAY, METAL, ICE,
    WATER, MUD, OIL, LAVA, STEAM, SMOKE, GAS, GRASS, PLANT, WOOD, CHARCOAL,
    FIRE, ELECTRICITY, EXPLOSION]
  split_ifs at hl ⊢ <;> omega

theorem updateEnergy_explosion_dead (s : Sim) (r : RSrc) (k : Nat) (x y : Int)
    (cell : Cell) (hid : cell.id = EXPLOSION)
    (hl : (if cell.life ≠ 0 then cell.life else 3) - 1 ≤ 0) :
    updateEnergy s r k x y cell (getMaterial EXPLOSION) =
      (true, setCell
        { s with grid :=
                   s.grid.set (y * s.width + x).toNat
                     { cell with life := (if cell.life ≠ 0 then cell.life else 3) - 1 } }
        x y AIR r k) := by
  simp only [updateEnergy, hid]
  norm_num [getMaterial, STONE, DIRT, SAND, CLAY, METAL, ICE,
    WATER, MUD, OIL, LAVA, STEAM, SMOKE, GAS, GRASS, PLANT, WOOD, CHARCOAL,
    FIRE, ELECTRICITY, EXPLOSION]
  split_ifs at hl ⊢ <;> omega

/-- C9.  When the physics step processes an in-range EXPLOSION cell all
of whose 8 neighbours (as read through `getCell`, so out-of-range
neighbours count as the immovable boundary) are AIR, or all of which are
immovable, no cell other than the explosion cell itself is modified;
the explosion's own life counter is decremented in place and, when it
reaches zero, the cell is converted via `setCell` to AIR (EXPLOSION has
no `produces` material, so the produces-or-AIR conversion yields AIR).
The grid-length hypothesis is the well-formedness every constructed
state satisfies. -/
theorem c9_explosion_containment (s : Sim) (r : RSrc) (k : Nat) (x y : Int)
    (hx0 : 0 ≤ x) (hxw : x < s.width) (hy0 : 0 ≤ y) (hyh : y < s.height)
    (hlen : s.grid.length = (s.width * s.height).toNat)
    (hexp : (getCell s x y).id = EXPLOSION)
    (hnb : (∀ d ∈ expDirs, (getCell s (x + d.1) (y + d.2)).id = AIR) ∨
      (∀ d ∈ expDirs, (getMaterial (getCell s (x + d.1) (y + d.2)).id).immovable = true)) :
    (∀ x2 y2 : Int, (x2, y2) ≠ (x, y) →
      getCell (physicsUpdate s r k x y).2.1 x2 y2 = getCell s x2 y2) ∧
    (if ((if (getCell s x y).life ≠ 0 then (getCell s x y).life else 3) - 1) ≤ 0
     then (getCell (physicsUpdate s r k x y).2.1 x y).id = AIR
     else
       (physicsUpdate s r k x y).2.1 =
         { s with grid :=
                    s.grid.set (y * s.width + x).toNat
                      { getCell s x y with life :=
                          (if (getCell s x y).life ≠ 0
                           then (getCell s x y).life else 3) - 1 } }) := by
  have hdisp := physicsUpdate_explosion_dispatch s r k x y hexp
  set cell := getCell s x y with hcell
  set l1 : Int := (if cell.life ≠ 0 then cell.life else 3) - 1 with hl1
  set s0 : Sim :=
    { s with grid := s.grid.set (y * s.width + x).toNat { cell with life := l1 } }
    with hs0
  have hs0frame : ∀ x2 y2 : Int, (x2, y2) ≠ (x, y) →
      getCell s0 x2 y2 = getCell s x2 y2 := by
    intro x2 y2 hne
    exact getCell_gridSet_ne s _ hx0 hxw hy0 hyh hne
  have hs0w : s0.width = s.width := rfl
  have hs0h : s0.height = s.height := rfl
  have hs0len : s0.grid.length = (s0.width * s0.height).toNat := by
    show (s.grid.set _ _).length = _
    rw [List.length_set]
    exact hlen
  by_cases hl : l1 ≤ 0
  · have hrun := updateEnergy_explosion_dead s r k x y cell hexp
      (by rw [← hl1]; exact hl)
    rw [← hl1, ← hs0] at hrun
    constructor
    · intro x2 y2 hne
      rw [hdisp, hrun]
      show getCell (setCell s0 x y AIR r k).1 x2 y2 = getCell s x2 y2
      rw [getCell_setCell_ne AIR r k hne]
      exact hs0frame x2 y2 hne
    · rw [if_pos hl, hdisp, hrun]
      show (getCell (setCell s0 x y AIR r k).1 x y).id = AIR
      rw [getCell_setCell_self AIR r k (by omega) (by rw [hs0w]; omega)
        (by omega) (by rw [hs0h]; omega) hs0len]
  · have hrun := updateEnergy_explosion_alive s r k x y cell hexp
      (by rw [← hl1]; exact hl)
    rw [← hl1, ← hs0] at hrun
    have hfold : expDirs.foldl (fun acc d => explosionPush acc x y d.1 d.2) s0 = s0 := by
      apply foldl_fixed
      intro d hd
      apply explosionPush_noop
      rw [hs0frame (x + d.1) (y + d.2) (expDirs_ne_center x y d hd)]
      rcases hnb with hnb | hnb
      · exact Or.inl (hnb d hd)
      · exact Or.inr (hnb d hd)
    constructor
    · intro x2 y2 hne
      rw [hdisp, hrun]
      show getCell (expDirs.foldl (fun acc d => explosionPush acc x y d.1 d.2) s0) x2 y2
        = getCell s x2 y2
      rw [hfold]
      exact hs0frame x2 y2 hne
    · rw [if_neg hl, hdisp, hrun]
      show expDirs.foldl (fun acc d => explosionPush acc x y d.1 d.2) s0 = s0
      exact hfold

/-- C9 witness: the 1×1 grid `c9State` holds EXPLOSION with life 3; all
eight neighbours are the immovable boundary, and one physics update
leaves a state whose only difference is the decremented life counter. -/
theorem c9_explosion_containment_witness :
    (getCell c9State 0 0).id = EXPLOSION ∧
    getCell (physicsUpdate c9State rngZero 0 0 0).2.1 0 0 =
      { id := EXPLOSION, life := 2, temperature := 2000 } ∧
    getCell (physicsUpdate c9State rngZero 0 0 0).2.1 1 1 = getCell c9State 1 1 := by
  have h := c9_explosion_containment c9State rngZero 0 0 0 (by decide) (by decide)
    (by decide) (by decide) (by decide) (by decide)
    (Or.inr (by decide))
  refine ⟨by decide, ?_, h.1 1 1 (by decide)⟩
  have h2 := h.2
  rw [if_neg (by decide)] at h2
  rw [h2]
  decide

/-- Bresenham loop invariant: with `rx`/`ry` the signed remaining
distances `(x1 - x0) * sx` and `(y1 - y0) * sy`, both stay in
`[0, dx]` × `[0, dy]` and `err = dx - dy + rx * dy - ry * dx`; each
iteration decreases `rx + ry`, so fuel `rx + ry + 1` suffices. -/
theorem drawLineLoop_isSome (r : RSrc) (mid radius x1 y1 sx sy dx dy : Int)
    (hsx : sx = 1 ∨ sx = -1) (hsy : sy = 1 ∨ sy = -1)
    (hdx : 0 ≤ dx) (hdy : 0 ≤ dy) :
    ∀ (fuel : Nat) (s : Sim) (k : Nat) (x0 y0 err rx ry : Int),
      rx = (x1 - x0) * sx → ry = (y1 - y0) * sy →
      0 ≤ rx → rx ≤ dx → 0 ≤ ry → ry ≤ dy →
      err = dx - dy + rx * dy - ry * dx →
      rx + ry < (fuel : Int) →
      (drawLineLoop r mid radius x1 y1 sx sy dx dy fuel s k x0 y0 err).isSome = true := by
  intro fuel
  induction fuel with
  | zero =>
      intro s k x0 y0 err rx ry _ _ h0x _ h0y _ _ hfuel
      exact absurd hfuel (by push_cast; omega)
  | succ n ih =>
      intro s k x0 y0 err rx ry hrx hry h0x hxd h0y hyd herr hfuel
      simp only [drawLineLoop]
      by_cases hstop : x0 = x1 ∧ y0 = y1
      · rw [if_pos hstop]
        simp
      · rw [if_neg hstop]
        have hsx2 : sx * sx = 1 := by rcases hsx with h | h <;> rw [h] <;> ring
        have hsy2 : sy * sy = 1 := by rcases hsy with h | h <;> rw [h] <;> ring
        have hrx0 : rx = 0 → x0 = x1 := by
          intro h0
          rcases hsx with h | h <;> rw [h] at hrx <;> omega
        have hry0 : ry = 0 → y0 = y1 := by
          intro h0
          rcases hsy with h | h <;> rw [h] at hry <;> omega
        have hnotboth : ¬(rx = 0 ∧ ry = 0) := by
          rintro ⟨ha, hb⟩
          exact hstop ⟨hrx0 ha, hry0 hb⟩
        have hstepx_pos : 2 * err > -dy → 1 ≤ rx := by
          intro hsx'
          by_contra hc
          have hrx00 : rx = 0 := by omega
          have hry1 : 1 ≤ ry := by
            rcases Int.lt_or_le 0 ry with h | h
            · omega
            · exact absurd ⟨hrx00, by omega⟩ hnotboth
          have hprod : 0 ≤ dx * (ry - 1) := mul_nonneg hdx (by omega)
          have hexpand : ry * dx = dx * (ry - 1) + dx := by ring
          have herr2 : err = dx - dy - ry * dx := by rw [herr, hrx00]; ring
          linarith
        have hstepy_pos : 2 * err < dx → 1 ≤ ry := by
          intro hsy'
          by_contra hc
          have hry00 : ry = 0 := by omega
          have hrx1 : 1 ≤ rx := by
            rcases Int.lt_or_le 0 rx with h | h
            · omega
            · exact absurd ⟨by omega, hry00⟩ hnotboth
          have hprod : 0 ≤ dy * (rx - 1) := mul_nonneg hdy (by omega)
          have hexpand : rx * dy = dy * (rx - 1) + dy := by ring
          have herr2 : err = dx - dy + rx * dy := by rw [herr, hry00]; ring
          linarith
        have hrxstep : (x1 - (x0 + sx)) * sx = rx - 1 := by
          have : (x1 - (x0 + sx)) * sx = (x1 - x0) * sx - sx * sx := by ring
          rw [this, hsx2, ← hrx]
        have hrystep : (y1 - (y0 + sy)) * sy = ry - 1 := by
          have : (y1 - (y0 + sy)) * sy = (y1 - y0) * sy - sy * sy := by ring
          rw [this, hsy2, ← hry]
        by_cases hX : 2 * err > -dy <;> by_cases hY : 2 * err < dx
        · -- both coordinates step
          rw [if_pos hX, if_pos hX, if_pos hY, if_pos hY]
          exact ih _ _ (x0 + sx) (y0 + sy) _ (rx - 1) (ry - 1)
            hrxstep.symm hrystep.symm (by have := hstepx_pos hX; omega) (by omega)
            (by have := hstepy_pos hY; omega) (by omega)
            (by rw [herr]; ring) (by push_cast at hfuel ⊢; omega)
        · -- only x steps
          rw [if_pos hX, if_pos hX, if_neg hY, if_neg hY]
          exact ih _ _ (x0 + sx) y0 _ (rx - 1) ry
            hrxstep.symm hry (by have := hstepx_pos hX; omega) (by omega)
            h0y hyd
            (by rw [herr]; ring) (by push_cast at hfuel ⊢; omega)
        · -- only y steps
          rw [if_neg hX, if_neg hX, if_pos hY, if_pos hY]
          exact ih _ _ x0 (y0 + sy) _ rx (ry - 1)
            hrx hrystep.symm h0x hxd (by have := hstepy_pos hY; omega) (by omega)
            (by rw [herr]; ring) (by push_cast at hfuel ⊢; omega)
        · -- neither condition holds: forces dx = dy = 0, i.e. the break
          exfalso
          have hdd : dx ≤ -dy := by omega
          have hdx0 : dx = 0 := by omega
          have hdy0 : dy = 0 := by omega
          exact hnotboth ⟨by omega, by omega⟩

/-- C10.  `drawLine` terminates for every choice of integer endpoints,
material id and radius: the Bresenham stepping loop, given fuel
`|x1 - x0| + |y1 - y0| + 1`, always reaches the
`x0 === x1 && y0 === y1` break (the result is `some`), including when
the endpoints coincide or lie entirely out of grid range. -/
theorem c10_drawLine_terminates (s : Sim) (r : RSrc) (k : Nat)
    (x0 y0 x1 y1 mid radius : Int) :
    (drawLine s r k x0 y0 x1 y1 mid radius).isSome = true := by
  unfold drawLine
  have hsx : (if x0 < x1 then (1:Int) else -1) = 1 ∨
      (if x0 < x1 then (1:Int) else -1) = -1 := by
    split <;> simp
  have hsy : (if y0 < y1 then (1:Int) else -1) = 1 ∨
      (if y0 < y1 then (1:Int) else -1) = -1 := by
    split <;> simp
  apply drawLineLoop_isSome r mid radius x1 y1 _ _ |x1 - x0| |y1 - y0| hsx hsy
    (abs_nonneg _) (abs_nonneg _) _ s k x0 y0 _ |x1 - x0| |y1 - y0|
  · split
    · rw [abs_of_pos (by omega)]; ring
    · rw [abs_of_nonpos (by omega)]; ring
  · split
    · rw [abs_of_pos (by omega)]; ring
    · rw [abs_of_nonpos (by omega)]; ring
  · exact abs_nonneg _
  · exact le_refl _
  · exact abs_nonneg _
  · exact le_refl _
  · ring
  · have h1 : (0:Int) ≤ |x1 - x0| := abs_nonneg _
    have h2 : (0:Int) ≤ |y1 - y0| := abs_nonneg _
    rw [Int.toNat_of_nonneg (by omega)]
    omega

theorem getCell_oob {s : Sim} {x y : Int}
    (h : x < 0 ∨ x ≥ s.width ∨ y < 0 ∨ y ≥ s.height) :
    getCell s x y = boundaryCell := by
  unfold getCell
  rw [if_pos h]

/-- C2 amended.  For every state and every evaluated cell matching this
shape — a WATER cell with SAND directly above and FIRE directly below,
and no LAVA among its 8 neighbours — a single interaction-step
evaluation under the all-pass random source applies TWO rule families:
the phase-change family (family 1) converts the evaluated cell to
STEAM, and the erosion family (family 6), still evaluated afterwards
against the stale pre-evaluation WATER identity, converts the SAND
above to MUD.  The six families are checked in their fixed order, but
evaluation does not short-circuit on the first family that applies. -/
theorem c2_families_not_short_circuited (s : Sim) (x y : Int) (k : Nat)
    (hlen : s.grid.length = (s.width * s.height).toNat)
    (hw : (getCell s x y).id = WATER)
    (ha : (getCell s x (y - 1)).id = SAND)
    (hb : (getCell s x (y + 1)).id = FIRE)
    (hl : (getCell s (x - 1) y).id ≠ LAVA)
    (hr : (getCell s (x + 1) y).id ≠ LAVA)
    (hal : (getCell s (x - 1) (y - 1)).id ≠ LAVA)
    (har : (getCell s (x + 1) (y - 1)).id ≠ LAVA)
    (hbl : (getCell s (x - 1) (y + 1)).id ≠ LAVA)
    (hbr : (getCell s (x + 1) (y + 1)).id ≠ LAVA) :
    (getCell (interactionsUpdate s rngZero k x y).2.1 x y).id = STEAM ∧
    (getCell (interactionsUpdate s rngZero k x y).2.1 x (y - 1)).id = MUD := by
  have hin : ¬(x < 0 ∨ x ≥ s.width ∨ y < 0 ∨ y ≥ s.height) := by
    intro hc
    rw [getCell_oob hc] at hw
    norm_num [boundaryCell, STONE, WATER] at hw
  have hinA : ¬(x < 0 ∨ x ≥ s.width ∨ y - 1 < 0 ∨ y - 1 ≥ s.height) := by
    intro hc
    rw [getCell_oob hc] at ha
    norm_num [boundaryCell, STONE, SAND] at ha
  have t1 : checkMelting s rngZero k x y (getCell s x y)
      (getMaterial ((getCell s x y).id)) (getNeighbors s x y)
      = (true, setCell s x y STEAM rngZero (k + 1)) := by
    rw [hw]
    simp only [checkMelting, hw, getNeighbors, meltWaterLoop, ha, hb]
    norm_num [WATER, ICE, SAND, FIRE, LAVA, rngZero]
  have t2 : ∀ (t : Sim) (j : Nat), checkBurning t rngZero j x y (getCell s x y)
      (getMaterial ((getCell s x y).id)) (getNeighbors s x y) = (false, t, j) := by
    intro t j
    rw [hw]
    rfl
  have t3 : ∀ (t : Sim) (j : Nat),
      checkMixing t rngZero j x y (getCell s x y) (getNeighbors s x y)
        = (false, t, j) := by
    intro t j
    simp only [checkMixing, hw, getNeighbors, mixWaterLavaLoop, ha, hb]
    simp only [LAVA] at hl hr hal har hbl hbr
    norm_num [WATER, SAND, DIRT, LAVA, FIRE, hl, hr, hal, har, hbl, hbr]
  have t4 : ∀ (t : Sim) (j : Nat),
      checkGrowing t rngZero j x y (getCell s x y) (getNeighbors s x y)
        = (false, t, j) := by
    intro t j
    simp [checkGrowing, hw]
    norm_num [WATER, GRASS, PLANT]
  have t5 : ∀ (t : Sim) (j : Nat),
      checkConduction t rngZero j x y (getCell s x y) (getNeighbors s x y)
        = (false, t, j) := by
    intro t j
    simp [checkConduction, hw]
    norm_num [WATER, ELECTRICITY]
  have t6 : ∀ (t : Sim) (j : Nat),
      checkErosion t rngZero j x y (getCell s x y) (getNeighbors s x y) =
        (true, setCell t x (y - 1) MUD rngZero (j + 1)) := by
    intro t j
    simp only [checkErosion, hw, getNeighbors, erosionLoop, ha]
    norm_num [WATER, SAND, rngZero]
    rfl
  have hguard : ¬((getCell s x y).id = AIR) := by rw [hw]; norm_num [WATER, AIR]
  have hupdate : (interactionsUpdate s rngZero k x y).2.1 =
      (setCell (setCell s x y STEAM rngZero (k + 1)).1 x (y - 1) MUD rngZero
        ((setCell s x y STEAM rngZero (k + 1)).2 + 1)).1 := by
    show (if (getCell s x y).id = AIR then ((false, s, k) : Bool × Sim × Nat)
      else
        (match checkMelting s rngZero k x y (getCell s x y)
            (getMaterial ((getCell s x y).id)) (getNeighbors s x y) with
         | (c1, s1, k1) =>
           match checkBurning s1 rngZero k1 x y (getCell s x y)
               (getMaterial ((getCell s x y).id)) (getNeighbors s x y) with
           | (c2, s2, k2) =>
             match checkMixing s2 rngZero k2 x y (getCell s x y)
                 (getNeighbors s x y) with
             | (c3, s3, k3) =>
               match checkGrowing s3 rngZero k3 x y (getCell s x y)
                   (getNeighbors s x y) with
               | (c4, s4, k4) =>
                 match checkConduction s4 rngZero k4 x y (getCell s x y)
                     (getNeighbors s x y) with
                 | (c5, s5, k5) =>
                   match checkErosion s5 rngZero k5 x y (getCell s x y)
                       (getNeighbors s x y) with
                   | (c6, s6, k6) => (c1 || c2 || c3 || c4 || c5 || c6, s6, k6))).2.1
      = (setCell (setCell s x y STEAM rngZero (k + 1)).1 x (y - 1) MUD rngZero
          ((setCell s x y STEAM rngZero (k + 1)).2 + 1)).1
    rw [if_neg hguard, t1]
    show (match checkBurning (setCell s x y STEAM rngZero (k + 1)).1 rngZero
        (setCell s x y STEAM rngZero (k + 1)).2 x y (getCell s x y)
        (getMaterial ((getCell s x y).id)) (getNeighbors s x y) with
      | (c2, s2, k2) =>
        match checkMixing s2 rngZero k2 x y (getCell s x y) (getNeighbors s x y) with
        | (c3, s3, k3) =>
          match checkGrowing s3 rngZero k3 x y (getCell s x y)
              (getNeighbors s x y) with
          | (c4, s4, k4) =>
            match checkConduction s4 rngZero k4 x y (getCell s x y)
                (getNeighbors s x y) with
            | (c5, s5, k5) =>
              match checkErosion s5 rngZero k5 x y (getCell s x y)
                  (getNeighbors s x y) with
              | (c6, s6, k6) => (true || c2 || c3 || c4 || c5 || c6, s6, k6)).2.1
      = (setCell (setCell s x y STEAM rngZero (k + 1)).1 x (y - 1) MUD rngZero
          ((setCell s x y STEAM rngZero (k + 1)).2 + 1)).1
    rw [t2]
    show (match checkMixing (setCell s x y STEAM rngZero (k + 1)).1 rngZero
        (setCell s x y STEAM rngZero (k + 1)).2 x y (getCell s x y)
        (getNeighbors s x y) with
      | (c3, s3, k3) =>
        match checkGrowing s3 rngZero k3 x y (getCell s x y) (getNeighbors s x y) with
        | (c4, s4, k4) =>
          match checkConduction s4 rngZero k4 x y (getCell s x y)
              (getNeighbors s x y) with
          | (c5, s5, k5) =>
            match checkErosion s5 rngZero k5 x y (getCell s x y)
                (getNeighbors s x y) with
            | (c6, s6, k6) => (true || false || c3 || c4 || c5 || c6, s6, k6)).2.1
      = (setCell (setCell s x y STEAM rngZero (k + 1)).1 x (y - 1) MUD rngZero
          ((setCell s x y STEAM rngZero (k + 1)).2 + 1)).1
    rw [t3]
    show (match checkGrowing (setCell s x y STEAM rngZero (k + 1)).1 rngZero
        (setCell s x y STEAM rngZero (k + 1)).2 x y (getCell s x y)
        (getNeighbors s x y) with
      | (c4, s4, k4) =>
        match checkConduction s4 rngZero k4 x y (getCell s x y)
            (getNeighbors s x y) with
        | (c5, s5, k5) =>
          match checkErosion s5 rngZero k5 x y (getCell s x y)
              (getNeighbors s x y) with
          | (c6, s6, k6) => (true || false || false || c4 || c5 || c6, s6, k6)).2.1
      = (setCell (setCell s x y STEAM rngZero (k + 1)).1 x (y - 1) MUD rngZero
          ((setCell s x y STEAM rngZero (k + 1)).2 + 1)).1
    rw [t4]
    show (match checkConduction (setCell s x y STEAM rngZero (k + 1)).1 rngZero
        (setCell s x y STEAM rngZero (k + 1)).2 x y (getCell s x y)
        (getNeighbors s x y) with
      | (c5, s5, k5) =>
        match checkErosion s5 rngZero k5 x y (getCell s x y)
            (getNeighbors s x y) with
        | (c6, s6, k6) => (true || false || false || false || c5 || c6, s6, k6)).2.1
      = (setCell (setCell s x y STEAM rngZero (k + 1)).1 x (y - 1) MUD rngZero
          ((setCell s x y STEAM rngZero (k + 1)).2 + 1)).1
    rw [t5]
    show (match checkErosion (setCell s x y STEAM rngZero (k + 1)).1 rngZero
        (setCell s x y STEAM rngZero (k + 1)).2 x y (getCell s x y)
        (getNeighbors s x y) with
      | (c6, s6, k6) => (true || false || false || false || false || c6, s6, k6)).2.1
      = (setCell (setCell s x y STEAM rngZero (k + 1)).1 x (y - 1) MUD rngZero
          ((setCell s x y STEAM rngZero (k + 1)).2 + 1)).1
    rw [t6]
  rw [hupdate]
  have hw1 := setCell_width s x y STEAM rngZero (k + 1)
  have hh1 := setCell_height s x y STEAM rngZero (k + 1)
  have hlen1 : (setCell s x y STEAM rngZero (k + 1)).1.grid.length =
      ((setCell s x y STEAM rngZero (k + 1)).1.width *
        (setCell s x y STEAM rngZero (k + 1)).1.height).toNat := by
    rw [setCell_length, hw1, hh1, hlen]
  constructor
  · rw [getCell_setCell_ne MUD rngZero _ (by intro hc; injection hc with h1 h2; omega),
      getCell_setCell_self STEAM rngZero (k + 1) (by omega) (by omega) (by omega)
        (by omega) hlen]
  · rw [getCell_setCell_self MUD rngZero _ (by omega) (by rw [hw1]; omega) (by omega)
      (by rw [hh1]; omega) hlen1]

/-- C2 amended witness: the concrete state `c2State` instantiates the
shape (WATER at (0,1), SAND above, FIRE below, no lava), and the single
evaluation applies both the phase-change and the erosion family. -/
theorem c2_families_not_short_circuited_witness :
    (getCell (interactionsUpdate c2State rngZero 5 0 1).2.1 0 1).id = STEAM ∧
    (getCell (interactionsUpdate c2State rngZero 5 0 1).2.1 0 0).id = MUD := by
  have h := c2_families_not_short_circuited c2State 0 1 5 (by decide) (by decide)
    (by decide) (by decide) (by decide) (by decide) (by decide) (by decide)
    (by decide) (by decide)
  exact ⟨h.1, h.2⟩

end Sandbox
